import Mathlib

/-!
Verification of the video-edit tool layer (src/video_edit_mcp/video_operations.py).

Each tool operation is embedded as a pure Lean function from an environment
(the external Media Engine and Path Resolver collaborators), the stores
(the in-process VideoStore / AudioStore caches), and the operation's
arguments, to an `OpResult`: the returned Result Envelope, the updated
stores, and two observability counters (number of Media Engine invocations
and number of Object Store load/store calls) used to state the
"does not touch the Engine / Store" properties.

The Media Engine (moviepy), the Object Store (`VideoStore`/`AudioStore` in
utils.py, which is not part of the sources) and the Path Resolver
(`get_output_path`) are external collaborators; they are modelled from the
spec, as noted on each definition.  Everything else is translated directly
from video_operations.py.
-/

set_option maxHeartbeats 1000000
set_option linter.unusedVariables false

/-- A raised exception, as observed at the operation boundary:
the exception class name (`type(e).__name__`) and its message (`str(e)`). -/
abbrev Exc := String × String

/-- Modelled from the spec (§3): a Clip is an opaque handle to decoded media
with a duration, frame rate and (for video) width/height, plus an audio flag. -/
structure Clip where
  duration : ℚ
  w : ℕ
  h : ℕ
  fps : ℚ
  hasAudio : Bool
deriving DecidableEq, Repr

/-- Modelled from the spec (§9): an input identifier is either a filesystem
path or a previously issued Object Reference (the source passes both as the
same duck-typed string argument; the spec models this as a tagged union). -/
inductive Ident where
  | path (p : String)
  | ref (n : ℕ)
deriving DecidableEq, Repr

/-- String rendering of an identifier, used in error messages. -/
def Ident.str : Ident → String
  | .path p => p
  | .ref n => "ref " ++ Nat.repr n

/-- Modelled from the spec (§4.1): the Object Store is a process-wide mapping
from generated references to live Clips, with a fresh-reference counter.
`VideoStore`/`AudioStore` live in utils.py, which is not among the sources. -/
structure Store where
  entries : List (ℕ × Clip)
  nextRef : ℕ
deriving DecidableEq, Repr

/-- Look a reference up in a store. -/
def Store.find (st : Store) (n : ℕ) : Option Clip := st.entries.lookup n

/-- Modelled from the spec (§4.1): `store(clip) -> reference` registers a Clip
under a freshly generated unique reference; never fails. -/
def storeClip (st : Store) (c : Clip) : ℕ × Store :=
  (st.nextRef, ⟨(st.nextRef, c) :: st.entries, st.nextRef + 1⟩)

/-- The cache-probe half of `load`: a path never matches a cache entry,
a reference is looked up in the store. -/
def storeLookup (st : Store) (x : Ident) : Option Clip :=
  match x with
  | .ref n => st.find n
  | .path _ => none

/-- Modelled from the spec (§2, §6): the external Media Engine and the inputs
it can open, plus which output locations it can write.  Kept abstract as
functions supplied by the test environment. -/
structure Env where
  openFile : String → Option Clip
  openAudio : String → Option Clip
  openImage : String → Option Clip
  openImageSeq : String → Option Clip
  renderText : String → Option Clip
  writeOk : String → Bool

/-- Modelled from the spec (§6): `open(path) -> Clip | fails`.  A reference
token is never an openable file. -/
def engineOpen (E : Env) (x : Ident) : Option Clip :=
  match x with
  | .path p => E.openFile p
  | .ref _ => none

/-- Modelled from the spec (§6): opening an audio file. -/
def engineOpenAudio (E : Env) (x : Ident) : Option Clip :=
  match x with
  | .path p => E.openAudio p
  | .ref _ => none

/-- Modelled from the spec (§4.1): `load(identifier) -> clip`.  A known
reference returns the cached Clip directly; otherwise the identifier is
treated as a path and opened by the Media Engine; failing both, the load
fails with NotFound. -/
def loadVideo (E : Env) (st : Store) (x : Ident) : Except Exc Clip :=
  match storeLookup st x with
  | some c => .ok c
  | none =>
    match engineOpen E x with
    | some c => .ok c
    | none => .error ("NotFound", "could not load video " ++ x.str)

/-- Modelled from the spec (§4.1): the AudioStore's `load`, same contract. -/
def loadAudio (E : Env) (st : Store) (x : Ident) : Except Exc Clip :=
  match storeLookup st x with
  | some c => .ok c
  | none =>
    match engineOpenAudio E x with
    | some c => .ok c
    | none => .error ("NotFound", "could not load audio " ++ x.str)

/-- Number of Media Engine invocations a `load` performs: none on a cache
hit, one `open` attempt otherwise. -/
def loadCalls (st : Store) (x : Ident) : ℕ :=
  if (storeLookup st x).isSome then 0 else 1

/-- Modelled from the spec (§6): `subclip(clip,start,end)`; out-of-range
bounds are an engine-level error (spec §4.2 step 3). -/
def subclip (c : Clip) (s e : ℚ) : Except Exc Clip :=
  if 0 ≤ s ∧ s ≤ e ∧ e ≤ c.duration then .ok { c with duration := e - s }
  else .error ("ValueError", "subclip bounds out of range")

/-- Modelled from the spec (§6): `resize(clip,w,h)`. -/
def resizeClip (c : Clip) (wh : ℤ × ℤ) : Clip :=
  { c with w := wh.1.toNat, h := wh.2.toNat }

/-- Modelled from the spec (§6): `crop(clip,x1,y1,x2,y2)`. -/
def cropClip (c : Clip) (x1 y1 x2 y2 : ℤ) : Clip :=
  { c with w := (x2 - x1).toNat, h := (y2 - y1).toNat }

/-- Modelled from the spec (§6): `rotate(clip,degrees)`; geometry is
engine-internal and not observable through the claims. -/
def rotateClip (c : Clip) (_angle : ℤ) : Clip := c

/-- Modelled from the spec (§4.3): `speed(factor)` alters duration inversely. -/
def speedClip (c : Clip) (f : ℚ) : Clip :=
  { c with duration := c.duration / f }

/-- Modelled from the spec (§6): `set_audio` fully replaces the audio track. -/
def setAudioClip (v _a : Clip) : Clip := { v with hasAudio := true }

/-- Modelled from the spec (§6): `fade_in(clip,seconds)` keeps the geometry
and duration. -/
def fadeinClip (c : Clip) (_d : ℚ) : Clip := c

/-- Modelled from the spec (§6): `fade_out(clip,seconds)`. -/
def fadeoutClip (c : Clip) (_d : ℚ) : Clip := c

/-- Modelled from the spec (§6): `desaturate` filter. -/
def blackwhiteClip (c : Clip) : Clip := c

/-- Modelled from the spec (§6): `flip_horizontal`. -/
def mirrorClip (c : Clip) : Clip := c

/-- Modelled from the spec (§6): `concatenate([a,b])`, sequential. -/
def concatClips (a b : Clip) : Clip :=
  { a with duration := a.duration + b.duration }

/-- Modelled from the spec (§6): `composite([base, overlay])`; the base
clip's geometry wins. -/
def compositeClips (base _over : Clip) : Clip := base

/-- Modelled from moviepy's `set_duration` setter used on overlay clips. -/
def setDurClip (c : Clip) (d : ℚ) : Clip := { c with duration := d }

/-- Modelled from the spec (§6): `sample_frames(clip, fps)`; frames are
abstract tokens, one per sampled instant. -/
def sampleFrames (c : Clip) (fps : ℤ) : List ℕ :=
  List.range (c.duration * (fps : ℚ)).floor.toNat

/-- Modelled from the spec (§2): the Path Resolver, a pure function
`resolve_output(name) -> path` (`get_output_path` in utils.py, not among
the sources). -/
def get_output_path (name : String) : String := "/output/" ++ name

/-- The value held by the `output_object` key of an envelope: normally an
Object Reference, but `extract_frames` puts the raw frame list there. -/
inductive OutVal where
  | ref (n : ℕ)
  | frames (fs : List ℕ)
deriving DecidableEq, Repr

/-- The metadata record returned by `get_video_info`. -/
structure VideoInfo where
  duration : ℚ
  fps : ℚ
  w : ℕ
  h : ℕ
  hasAudio : Bool
deriving DecidableEq, Repr

/-- The uniform Result Envelope (spec §3): every key that any operation can
put in its returned dict; an absent key is `none`. -/
structure Envelope where
  success : Bool
  output_path : Option String := none
  output_paths : Option (List String) := none
  output_object : Option OutVal := none
  output_objects : Option (List ℕ) := none
  message : Option String := none
  error : Option String := none
  error_type : Option String := none
  video_info : Option VideoInfo := none
deriving DecidableEq, Repr

/-- The two in-process caches: `VideoStore` and `AudioStore`. -/
structure Stores where
  vstore : Store
  astore : Store
deriving DecidableEq, Repr

/-- What one operation call produces: the envelope, the stores after the
call, and counters of Media Engine invocations and Object Store
load/store calls made during the call. -/
structure OpResult where
  out : Envelope
  stores : Stores
  engineCalls : ℕ
  storeOps : ℕ
deriving DecidableEq, Repr

/-- A validation-failure return: `success=false` with `error` and `message`,
produced before the Engine or the Stores are touched. -/
def vres (S : Stores) (err msg : String) : OpResult :=
  ⟨{ success := false, error := some err, message := some msg }, S, 0, 0⟩

/-- A caught-exception return with the per-operation handler message:
`success=false` with `error`, `error_type` and `message`. -/
def eres (S : Stores) (ec so : ℕ) (x : Exc) (msg : String) : OpResult :=
  ⟨{ success := false, error := some x.2, error_type := some x.1,
     message := some msg }, S, ec, so⟩

/-- The caught-exception return of `get_video_info`, which has no
`message` key. -/
def gres (S : Stores) (ec so : ℕ) (x : Exc) : OpResult :=
  ⟨{ success := false, error := some x.2, error_type := some x.1 }, S, ec, so⟩

/-- A `return_path=true` success: `output_path` plus `message`. -/
def pres (S : Stores) (ec so : ℕ) (p msg : String) : OpResult :=
  ⟨{ success := true, output_path := some p, message := some msg }, S, ec, so⟩

/-- The `split` operation's `return_path=true` success: `output_paths`. -/
def presL (S : Stores) (ec so : ℕ) (ps : List String) (msg : String) : OpResult :=
  ⟨{ success := true, output_paths := some ps, message := some msg }, S, ec, so⟩

/-- A `return_path=false` success: `output_object` holds a store reference
(with or without a `message`, matching each operation's dict literal). -/
def ores (S : Stores) (ec so : ℕ) (n : ℕ) (msg : Option String) : OpResult :=
  ⟨{ success := true, output_object := some (OutVal.ref n), message := msg },
   S, ec, so⟩

/-- The `split` operation's `return_path=false` success: `output_objects`. -/
def oresL (S : Stores) (ec so : ℕ) (ns : List ℕ) : OpResult :=
  ⟨{ success := true, output_objects := some ns }, S, ec, so⟩

/-- The `extract_frames` `return_path=false` success: `output_object` holds
the raw frame list. -/
def fres (S : Stores) (ec so : ℕ) (fs : List ℕ) (msg : String) : OpResult :=
  ⟨{ success := true, output_object := some (OutVal.frames fs),
     message := some msg }, S, ec, so⟩

/-- The `get_video_info` success: `video_info` only. -/
def ires (S : Stores) (info : VideoInfo) : OpResult :=
  ⟨{ success := true, video_info := some info }, S, 1, 0⟩

/-- The shared emit step (spec §4.2 step 4): `return_path=true` writes the
clip via the Engine (a write failure is an exception caught by the
operation's handler); `return_path=false` registers the clip in the
VideoStore and returns the fresh reference.  `ec`/`so` are the counters
accumulated before the emit. -/
def emit1 (E : Env) (S : Stores) (ec so : ℕ) (c : Clip) (outp okMsg failMsg : String)
    (storeMsg : Option String) (rp : Bool) : OpResult :=
  if rp then
    if E.writeOk outp then pres S (ec + 1) so outp okMsg
    else eres S (ec + 1) so ("IOError", "failed to write " ++ outp) failMsg
  else
    ores ⟨(storeClip S.vstore c).2, S.astore⟩ ec (so + 1) (storeClip S.vstore c).1 storeMsg

/-- get_video_info: opens the path directly with the Media Engine (the
source calls `VideoFileClip(video_path)`, not `VideoStore.load`), returns
the metadata, or a `success=false` envelope with `error`/`error_type`. -/
def get_video_info (E : Env) (S : Stores) (v : Ident) : OpResult :=
  match engineOpen E v with
  | some video => ires S ⟨video.duration, video.fps, video.w, video.h, video.hasAudio⟩
  | none => gres S 1 0 ("OSError", "could not open " ++ v.str)

/-- trim_video: validate the times, resolve, subclip, emit. -/
def trim_video (E : Env) (S : Stores) (v : Ident) (start_time end_time : ℚ)
    (name : String) (rp : Bool) : OpResult :=
  if start_time < 0 ∨ end_time < 0 then
    vres S "Start and end times must be positive" "Invalid time parameters"
  else if start_time ≥ end_time then
    vres S "Start time must be less than end time" "Invalid time range"
  else
    match loadVideo E S.vstore v with
    | .error x => eres S (loadCalls S.vstore v) 1 x "Error trimming video"
    | .ok video =>
      match subclip video start_time end_time with
      | .error x => eres S (loadCalls S.vstore v + 1) 1 x "Error trimming video"
      | .ok trimmed =>
        emit1 E S (loadCalls S.vstore v + 1) 1 trimmed (get_output_path name)
          "Video trimmed successfully" "Error trimming video" none rp

/-- merge_video: resolve both inputs, concatenate, emit (the store branch
of the source includes a `message`). -/
def merge_video (E : Env) (S : Stores) (v1 v2 : Ident) (name : String) (rp : Bool) : OpResult :=
  match loadVideo E S.vstore v1 with
  | .error x => eres S (loadCalls S.vstore v1) 1 x "Error merging videos"
  | .ok a =>
    match loadVideo E S.vstore v2 with
    | .error x =>
      eres S (loadCalls S.vstore v1 + loadCalls S.vstore v2) 2 x "Error merging videos"
    | .ok b =>
      emit1 E S (loadCalls S.vstore v1 + loadCalls S.vstore v2 + 1) 2 (concatClips a b)
        (get_output_path name) "Videos merged successfully" "Error merging videos"
        (some "Videos merged successfully") rp

/-- resize_video: validate the size pair, resolve, resize, emit. -/
def resize_video (E : Env) (S : Stores) (v : Ident) (wh : ℤ × ℤ)
    (name : String) (rp : Bool) : OpResult :=
  if wh.1 ≤ 0 ∨ wh.2 ≤ 0 then
    vres S "Size must be a tuple of two positive integers (width, height)"
      "Invalid size parameters"
  else
    match loadVideo E S.vstore v with
    | .error x => eres S (loadCalls S.vstore v) 1 x "Error resizing video"
    | .ok video =>
      emit1 E S (loadCalls S.vstore v + 1) 1 (resizeClip video wh) (get_output_path name)
        "Video resized successfully" "Error resizing video" none rp

/-- crop_video: validate the rectangle, resolve, crop, emit. -/
def crop_video (E : Env) (S : Stores) (v : Ident) (x1 y1 x2 y2 : ℤ)
    (name : String) (rp : Bool) : OpResult :=
  if x1 < 0 ∨ y1 < 0 ∨ x2 ≤ x1 ∨ y2 ≤ y1 then
    vres S "Invalid crop coordinates. x2 > x1 and y2 > y1, all values must be non-negative"
      "Invalid crop parameters"
  else
    match loadVideo E S.vstore v with
    | .error x => eres S (loadCalls S.vstore v) 1 x "Error cropping video"
    | .ok video =>
      emit1 E S (loadCalls S.vstore v + 1) 1 (cropClip video x1 y1 x2 y2)
        (get_output_path name) "Video cropped successfully" "Error cropping video" none rp

/-- rotate_video: the source's isinstance validation always passes for a
typed numeric argument, so there is no reachable validation branch. -/
def rotate_video (E : Env) (S : Stores) (v : Ident) (angle : ℤ)
    (name : String) (rp : Bool) : OpResult :=
  match loadVideo E S.vstore v with
  | .error x => eres S (loadCalls S.vstore v) 1 x "Error rotating video"
  | .ok video =>
    emit1 E S (loadCalls S.vstore v + 1) 1 (rotateClip video angle) (get_output_path name)
      "Video rotated successfully" "Error rotating video" none rp

/-- speed_up_video: validate the factor, resolve, speedx, emit. -/
def speed_up_video (E : Env) (S : Stores) (v : Ident) (speed : ℚ)
    (name : String) (rp : Bool) : OpResult :=
  if speed ≤ 0 then
    vres S "Speed must be positive (e.g., 2.0 for 2x speed)" "Invalid speed parameter"
  else
    match loadVideo E S.vstore v with
    | .error x => eres S (loadCalls S.vstore v) 1 x "Error changing video speed"
    | .ok video =>
      emit1 E S (loadCalls S.vstore v + 1) 1 (speedClip video speed) (get_output_path name)
        "Video speed changed successfully" "Error changing video speed" none rp

/-- add_audio: resolve the video and the audio (through the AudioStore),
replace the audio track, emit. -/
def add_audio (E : Env) (S : Stores) (v a : Ident) (name : String) (rp : Bool) : OpResult :=
  match loadVideo E S.vstore v with
  | .error x => eres S (loadCalls S.vstore v) 1 x "Error adding audio to video"
  | .ok video =>
    match loadAudio E S.astore a with
    | .error x =>
      eres S (loadCalls S.vstore v + loadCalls S.astore a) 2 x "Error adding audio to video"
    | .ok audio =>
      emit1 E S (loadCalls S.vstore v + loadCalls S.astore a + 1) 2
        (setAudioClip video audio) (get_output_path name) "Audio added successfully"
        "Error adding audio to video" none rp

/-- fadein_video: validate the duration, resolve, fade, emit. -/
def fadein_video (E : Env) (S : Stores) (v : Ident) (fade_duration : ℚ)
    (name : String) (rp : Bool) : OpResult :=
  if fade_duration ≤ 0 then
    vres S "Fade duration must be positive" "Invalid fade duration parameter"
  else
    match loadVideo E S.vstore v with
    | .error x => eres S (loadCalls S.vstore v) 1 x "Error adding fade in effect"
    | .ok video =>
      emit1 E S (loadCalls S.vstore v + 1) 1 (fadeinClip video fade_duration)
        (get_output_path name) "Fade in effect added successfully"
        "Error adding fade in effect" none rp

/-- fadeout_video: validate the duration, resolve, fade, emit. -/
def fadeout_video (E : Env) (S : Stores) (v : Ident) (fade_duration : ℚ)
    (name : String) (rp : Bool) : OpResult :=
  if fade_duration ≤ 0 then
    vres S "Fade duration must be positive" "Invalid fade duration parameter"
  else
    match loadVideo E S.vstore v with
    | .error x => eres S (loadCalls S.vstore v) 1 x "Error adding fade out effect"
    | .ok video =>
      emit1 E S (loadCalls S.vstore v + 1) 1 (fadeoutClip video fade_duration)
        (get_output_path name) "Fade out effect added successfully"
        "Error adding fade out effect" none rp

/-- add_text_overlay: validate text, font size and duration; resolve; render
the text layer (an engine call that depends on the external ImageMagick
binary and can fail); composite; emit. -/
def add_text_overlay (E : Env) (S : Stores) (v : Ident) (text : String)
    (_x _y : ℤ) (font_size : ℤ) (_color : String) (dur : ℚ)
    (name : String) (rp : Bool) (_magick : String) : OpResult :=
  if text.trim = "" then
    vres S "Text cannot be empty" "Invalid text parameter"
  else if font_size ≤ 0 then
    vres S "Font size must be positive" "Invalid font size parameter"
  else if dur ≤ 0 then
    vres S "Duration must be positive" "Invalid duration parameter"
  else
    match loadVideo E S.vstore v with
    | .error x =>
      eres S (loadCalls S.vstore v) 1 x
        "Error adding text overlay. Make sure ImageMagick is installed and path is correct."
    | .ok video =>
      match E.renderText text with
      | none =>
        eres S (loadCalls S.vstore v + 1) 1 ("OSError", "text rendering failed")
          "Error adding text overlay. Make sure ImageMagick is installed and path is correct."
      | some tclip =>
        emit1 E S (loadCalls S.vstore v + 2) 1 (compositeClips video (setDurClip tclip dur))
          (get_output_path name) "Text overlay added successfully"
          "Error adding text overlay. Make sure ImageMagick is installed and path is correct."
          (some "Text overlay added successfully") rp

/-- add_image_overlay: validate the duration, resolve the video, open the
image (engine call, can fail), composite, emit. -/
def add_image_overlay (E : Env) (S : Stores) (v : Ident) (img : String)
    (_x _y : ℤ) (dur : ℚ) (name : String) (rp : Bool) : OpResult :=
  if dur ≤ 0 then
    vres S "Duration must be positive" "Invalid duration parameter"
  else
    match loadVideo E S.vstore v with
    | .error x => eres S (loadCalls S.vstore v) 1 x "Error adding image overlay"
    | .ok video =>
      match E.openImage img with
      | none =>
        eres S (loadCalls S.vstore v + 1) 1 ("OSError", "could not open image " ++ img)
          "Error adding image overlay"
      | some logo =>
        emit1 E S (loadCalls S.vstore v + 2) 1 (compositeClips video (setDurClip logo dur))
          (get_output_path name) "Image overlay added successfully"
          "Error adding image overlay" none rp

/-- grayscale_video: resolve, desaturate, emit. -/
def grayscale_video (E : Env) (S : Stores) (v : Ident) (name : String) (rp : Bool) : OpResult :=
  match loadVideo E S.vstore v with
  | .error x => eres S (loadCalls S.vstore v) 1 x "Error converting video to grayscale"
  | .ok video =>
    emit1 E S (loadCalls S.vstore v + 1) 1 (blackwhiteClip video) (get_output_path name)
      "Video converted to grayscale successfully" "Error converting video to grayscale" none rp

/-- images_to_video: build a clip from the image folder at the given fps
(engine call, can fail), emit.  No Object Store load is involved. -/
def images_to_video (E : Env) (S : Stores) (folder : String) (fps : ℤ)
    (name : String) (rp : Bool) : OpResult :=
  match E.openImageSeq folder with
  | none =>
    eres S 1 0 ("OSError", "could not read image folder " ++ folder)
      "Error creating video from images"
  | some c =>
    emit1 E S 1 0 { c with fps := (fps : ℚ) } (get_output_path name)
      "Video created from images successfully" "Error creating video from images" none rp

/-- extract_frames: resolve, subclip (no validation of the times), then
either write numbered frame images into the folder (`return_path=true`,
the folder name is used directly, not resolved) or return the raw frame
list in `output_object` without registering anything in the store. -/
def extract_frames (E : Env) (S : Stores) (v : Ident) (start_time end_time : ℚ)
    (fps : ℤ) (folder : String) (rp : Bool) : OpResult :=
  match loadVideo E S.vstore v with
  | .error x => eres S (loadCalls S.vstore v) 1 x "Error extracting frames from video"
  | .ok video =>
    match subclip video start_time end_time with
    | .error x => eres S (loadCalls S.vstore v + 1) 1 x "Error extracting frames from video"
    | .ok sub =>
      if rp then
        if E.writeOk folder then
          pres S (loadCalls S.vstore v + 2) 1 folder "Frames extracted successfully"
        else
          eres S (loadCalls S.vstore v + 2) 1 ("IOError", "failed to write " ++ folder)
            "Error extracting frames from video"
      else
        fres S (loadCalls S.vstore v + 2) 1 (sampleFrames sub fps) "Frames extracted to memory"

/-- mirror_video: resolve, flip horizontally, emit. -/
def mirror_video (E : Env) (S : Stores) (v : Ident) (name : String) (rp : Bool) : OpResult :=
  match loadVideo E S.vstore v with
  | .error x => eres S (loadCalls S.vstore v) 1 x "Error mirroring video"
  | .ok video =>
    emit1 E S (loadCalls S.vstore v + 1) 1 (mirrorClip video) (get_output_path name)
      "Video mirrored successfully" "Error mirroring video" none rp

/-- Adjacent pairs of a list: the intervals cut by the boundary list. -/
def adjPairs : List ℚ → List (ℚ × ℚ)
  | a :: b :: rest => (a, b) :: adjPairs (b :: rest)
  | _ => []

/-- Take the subclip for each interval in order, propagating the first
engine failure (mirrors the source's segment loop). -/
def subclipSeq (video : Clip) : List (ℚ × ℚ) → Except Exc (List Clip)
  | [] => .ok []
  | (s, e) :: rest =>
    match subclip video s e with
    | .error x => .error x
    | .ok c =>
      match subclipSeq video rest with
      | .error x => .error x
      | .ok cs => .ok (c :: cs)

/-- How many subclip attempts the segment loop makes before stopping. -/
def subclipAttempts (video : Clip) : List (ℚ × ℚ) → ℕ
  | [] => 0
  | (s, e) :: rest =>
    match subclip video s e with
    | .error _ => 1
    | .ok _ => 1 + subclipAttempts video rest

/-- The per-segment output file of the split loop. -/
def partPath (dir name : String) (i : ℕ) : String :=
  dir ++ "/" ++ name ++ "_part_" ++ Nat.repr (i + 1) ++ ".mp4"

/-- Write each segment to its numbered file, propagating the first write
failure (mirrors the source's write loop). -/
def writeSeq (E : Env) (dir name : String) : List Clip → ℕ → Except Exc (List String)
  | [], _ => .ok []
  | _ :: cs, i =>
    if E.writeOk (partPath dir name i) then
      match writeSeq E dir name cs (i + 1) with
      | .error x => .error x
      | .ok ps => .ok (partPath dir name i :: ps)
    else .error ("IOError", "failed to write " ++ partPath dir name i)

/-- How many write attempts the split write loop makes. -/
def writeAttempts (E : Env) (dir name : String) : List Clip → ℕ → ℕ
  | [], _ => 0
  | _ :: cs, i =>
    if E.writeOk (partPath dir name i) then 1 + writeAttempts E dir name cs (i + 1)
    else 1

/-- Register each segment in order, returning the fresh references. -/
def storeAll (st : Store) : List Clip → List ℕ × Store
  | [] => ([], st)
  | c :: cs =>
    ((storeClip st c).1 :: (storeAll (storeClip st c).2 cs).1,
     (storeAll (storeClip st c).2 cs).2)

/-- split_video_at_times: resolve, build the boundary list
`[0] + split_times + [duration]`, subclip every adjacent interval (no
validation of the times), then write every segment or register every
segment. -/
def split_video_at_times (E : Env) (S : Stores) (v : Ident) (times : List ℚ)
    (name : String) (rp : Bool) : OpResult :=
  match loadVideo E S.vstore v with
  | .error x => eres S (loadCalls S.vstore v) 1 x "Error splitting video at times"
  | .ok video =>
    match subclipSeq video (adjPairs (0 :: (times ++ [video.duration]))) with
    | .error x =>
      eres S (loadCalls S.vstore v +
          subclipAttempts video (adjPairs (0 :: (times ++ [video.duration])))) 1 x
        "Error splitting video at times"
    | .ok segments =>
      if rp then
        match writeSeq E (get_output_path name) name segments 0 with
        | .error x =>
          eres S (loadCalls S.vstore v +
              subclipAttempts video (adjPairs (0 :: (times ++ [video.duration]))) +
              writeAttempts E (get_output_path name) name segments 0) 1 x
            "Error splitting video at times"
        | .ok ps =>
          presL S (loadCalls S.vstore v +
              subclipAttempts video (adjPairs (0 :: (times ++ [video.duration]))) +
              writeAttempts E (get_output_path name) name segments 0) 1 ps
            "Video split successfully"
      else
        oresL ⟨(storeAll S.vstore segments).2, S.astore⟩
          (loadCalls S.vstore v +
            subclipAttempts video (adjPairs (0 :: (times ++ [video.duration]))))
          (1 + segments.length) (storeAll S.vstore segments).1

/-- convert_video_format: resolve, then either re-encode to the output path
with the codec/fps/bitrate write options (`return_path=true`) or register
the loaded clip untouched (`return_path=false`): the store branch applies
no transformation at all, and the write options are never read there. -/
def convert_video_format (E : Env) (S : Stores) (v : Ident) (name codec : String)
    (fps : Option ℤ) (bitrate : Option String) (rp : Bool) : OpResult :=
  match loadVideo E S.vstore v with
  | .error x => eres S (loadCalls S.vstore v) 1 x "Error converting video format"
  | .ok video =>
    emit1 E S (loadCalls S.vstore v) 1 video (get_output_path name)
      "Video format converted successfully" "Error converting video format" none rp

/-- add_video_overlay: resolve both videos from the VideoStore, position /
opacity-scale / time-limit the overlay (pure setters), composite, emit.
The opacity is never validated (spec §4.3). -/
def add_video_overlay (E : Env) (S : Stores) (vb vo : Ident) (_x _y : ℤ)
    (_opacity : ℚ) (name : String) (rp : Bool) (dur : ℚ) : OpResult :=
  match loadVideo E S.vstore vb with
  | .error x => eres S (loadCalls S.vstore vb) 1 x "Error adding video overlay"
  | .ok base =>
    match loadVideo E S.vstore vo with
    | .error x =>
      eres S (loadCalls S.vstore vb + loadCalls S.vstore vo) 2 x "Error adding video overlay"
    | .ok over =>
      emit1 E S (loadCalls S.vstore vb + loadCalls S.vstore vo + 1) 2
        (compositeClips base (setDurClip over dur)) (get_output_path name)
        "Video overlay added successfully" "Error adding video overlay" none rp

/-- One call to any operation of the tool layer, with its arguments. -/
inductive Call where
  | getVideoInfo (v : Ident)
  | trim (v : Ident) (s e : ℚ) (name : String) (rp : Bool)
  | merge (v1 v2 : Ident) (name : String) (rp : Bool)
  | resize (v : Ident) (wh : ℤ × ℤ) (name : String) (rp : Bool)
  | crop (v : Ident) (x1 y1 x2 y2 : ℤ) (name : String) (rp : Bool)
  | rotate (v : Ident) (angle : ℤ) (name : String) (rp : Bool)
  | speedUp (v : Ident) (f : ℚ) (name : String) (rp : Bool)
  | addAudio (v a : Ident) (name : String) (rp : Bool)
  | fadeIn (v : Ident) (d : ℚ) (name : String) (rp : Bool)
  | fadeOut (v : Ident) (d : ℚ) (name : String) (rp : Bool)
  | textOverlay (v : Ident) (text : String) (x y fs : ℤ) (color : String) (d : ℚ)
      (name : String) (rp : Bool) (magick : String)
  | imageOverlay (v : Ident) (img : String) (x y : ℤ) (d : ℚ) (name : String) (rp : Bool)
  | grayscale (v : Ident) (name : String) (rp : Bool)
  | imagesToVideo (folder : String) (fps : ℤ) (name : String) (rp : Bool)
  | extractFrames (v : Ident) (s e : ℚ) (fps : ℤ) (folder : String) (rp : Bool)
  | mirror (v : Ident) (name : String) (rp : Bool)
  | splitAtTimes (v : Ident) (times : List ℚ) (name : String) (rp : Bool)
  | convertFormat (v : Ident) (name codec : String) (fps : Option ℤ)
      (bitrate : Option String) (rp : Bool)
  | videoOverlay (vb vo : Ident) (x y : ℤ) (opacity : ℚ) (name : String)
      (rp : Bool) (d : ℚ)
deriving DecidableEq, Repr

/-- Dispatch a call to its operation. -/
def runOp (E : Env) (S : Stores) : Call → OpResult
  | .getVideoInfo v => get_video_info E S v
  | .trim v s e name rp => trim_video E S v s e name rp
  | .merge v1 v2 name rp => merge_video E S v1 v2 name rp
  | .resize v wh name rp => resize_video E S v wh name rp
  | .crop v x1 y1 x2 y2 name rp => crop_video E S v x1 y1 x2 y2 name rp
  | .rotate v angle name rp => rotate_video E S v angle name rp
  | .speedUp v f name rp => speed_up_video E S v f name rp
  | .addAudio v a name rp => add_audio E S v a name rp
  | .fadeIn v d name rp => fadein_video E S v d name rp
  | .fadeOut v d name rp => fadeout_video E S v d name rp
  | .textOverlay v t x y fs color d name rp magick =>
      add_text_overlay E S v t x y fs color d name rp magick
  | .imageOverlay v img x y d name rp => add_image_overlay E S v img x y d name rp
  | .grayscale v name rp => grayscale_video E S v name rp
  | .imagesToVideo folder fps name rp => images_to_video E S folder fps name rp
  | .extractFrames v s e fps folder rp => extract_frames E S v s e fps folder rp
  | .mirror v name rp => mirror_video E S v name rp
  | .splitAtTimes v times name rp => split_video_at_times E S v times name rp
  | .convertFormat v name codec fps bitrate rp =>
      convert_video_format E S v name codec fps bitrate rp
  | .videoOverlay vb vo x y opacity name rp d =>
      add_video_overlay E S vb vo x y opacity name rp d

/-- Whether the call's arguments pass the operation's validation step
(the conditions are exactly the source's validation conditions). -/
def Call.validB : Call → Bool
  | .trim _ s e _ _ => !(decide (s < 0) || decide (e < 0)) && !(decide (s ≥ e))
  | .resize _ wh _ _ => !(decide (wh.1 ≤ 0) || decide (wh.2 ≤ 0))
  | .crop _ x1 y1 x2 y2 _ _ =>
      !(decide (x1 < 0) || decide (y1 < 0) || decide (x2 ≤ x1) || decide (y2 ≤ y1))
  | .speedUp _ f _ _ => !(decide (f ≤ 0))
  | .fadeIn _ d _ _ => !(decide (d ≤ 0))
  | .fadeOut _ d _ _ => !(decide (d ≤ 0))
  | .textOverlay _ t _ _ fs _ d _ _ _ =>
      !(decide (t.trim = "")) && !(decide (fs ≤ 0)) && !(decide (d ≤ 0))
  | .imageOverlay _ _ _ _ d _ _ => !(decide (d ≤ 0))
  | _ => true

/-- The `error` and `message` strings of the validation envelope the call
would produce, following the source's check order. -/
def Call.valMsg : Call → String × String
  | .trim _ s e _ _ =>
      if s < 0 ∨ e < 0 then
        ("Start and end times must be positive", "Invalid time parameters")
      else ("Start time must be less than end time", "Invalid time range")
  | .resize _ _ _ _ =>
      ("Size must be a tuple of two positive integers (width, height)",
       "Invalid size parameters")
  | .crop _ _ _ _ _ _ _ =>
      ("Invalid crop coordinates. x2 > x1 and y2 > y1, all values must be non-negative",
       "Invalid crop parameters")
  | .speedUp _ _ _ _ =>
      ("Speed must be positive (e.g., 2.0 for 2x speed)", "Invalid speed parameter")
  | .fadeIn _ _ _ _ =>
      ("Fade duration must be positive", "Invalid fade duration parameter")
  | .fadeOut _ _ _ _ =>
      ("Fade duration must be positive", "Invalid fade duration parameter")
  | .textOverlay _ t _ _ fs _ _ _ _ _ =>
      if t.trim = "" then ("Text cannot be empty", "Invalid text parameter")
      else if fs ≤ 0 then ("Font size must be positive", "Invalid font size parameter")
      else ("Duration must be positive", "Invalid duration parameter")
  | .imageOverlay _ _ _ _ _ _ _ =>
      ("Duration must be positive", "Invalid duration parameter")
  | _ => ("", "")

/-- The caller-supplied `return_path` flag of the call; `none` for
`get_video_info`, which takes no such flag. -/
def Call.rpFlag : Call → Option Bool
  | .getVideoInfo _ => none
  | .trim _ _ _ _ rp => some rp
  | .merge _ _ _ rp => some rp
  | .resize _ _ _ rp => some rp
  | .crop _ _ _ _ _ _ rp => some rp
  | .rotate _ _ _ rp => some rp
  | .speedUp _ _ _ rp => some rp
  | .addAudio _ _ _ rp => some rp
  | .fadeIn _ _ _ rp => some rp
  | .fadeOut _ _ _ rp => some rp
  | .textOverlay _ _ _ _ _ _ _ _ rp _ => some rp
  | .imageOverlay _ _ _ _ _ _ rp => some rp
  | .grayscale _ _ rp => some rp
  | .imagesToVideo _ _ _ rp => some rp
  | .extractFrames _ _ _ _ _ rp => some rp
  | .mirror _ _ rp => some rp
  | .splitAtTimes _ _ _ rp => some rp
  | .convertFormat _ _ _ _ _ rp => some rp
  | .videoOverlay _ _ _ _ _ _ rp _ => some rp

/-- The video input identifiers the call resolves through the VideoStore. -/
def Call.videoIdents : Call → List Ident
  | .getVideoInfo v => [v]
  | .trim v _ _ _ _ => [v]
  | .merge v1 v2 _ _ => [v1, v2]
  | .resize v _ _ _ => [v]
  | .crop v _ _ _ _ _ _ => [v]
  | .rotate v _ _ _ => [v]
  | .speedUp v _ _ _ => [v]
  | .addAudio v _ _ _ => [v]
  | .fadeIn v _ _ _ => [v]
  | .fadeOut v _ _ _ => [v]
  | .textOverlay v _ _ _ _ _ _ _ _ _ => [v]
  | .imageOverlay v _ _ _ _ _ _ => [v]
  | .grayscale v _ _ => [v]
  | .imagesToVideo _ _ _ _ => []
  | .extractFrames v _ _ _ _ _ => [v]
  | .mirror v _ _ => [v]
  | .splitAtTimes v _ _ _ => [v]
  | .convertFormat v _ _ _ _ _ => [v]
  | .videoOverlay vb vo _ _ _ _ _ _ => [vb, vo]

/-- The audio input identifiers the call resolves through the AudioStore. -/
def Call.audioIdents : Call → List Ident
  | .addAudio _ a _ _ => [a]
  | _ => []

/-- Is the call a `get_video_info` call? -/
def Call.isGetInfo : Call → Bool
  | .getVideoInfo _ => true
  | _ => false

/-- Is the call an `extract_frames` call? -/
def Call.isExtract : Call → Bool
  | .extractFrames _ _ _ _ _ _ => true
  | _ => false

/-- Classification of every envelope an operation can return, relative to
the initial stores `S0` and the call `c`:
a validation failure (exactly the validation envelope, stores untouched,
zero Engine and Store activity), a caught exception (with `error_type`;
a NotFound can only arise from a cache miss on one of the call's input
identifiers), `get_video_info`'s two shapes, or a success whose output
field matches the `return_path` flag (and whose store references resolve). -/
def LeafForm (S0 : Stores) (c : Call) (r : OpResult) : Prop :=
  (c.validB = false ∧ r = vres S0 c.valMsg.1 c.valMsg.2) ∨
  (c.validB = true ∧ (
    (∃ S ec so x m, r = eres S ec so x m ∧ (x.1 = "NotFound" →
        (∃ v, v ∈ c.videoIdents ∧ storeLookup S0.vstore v = none) ∨
        (∃ a, a ∈ c.audioIdents ∧ storeLookup S0.astore a = none))) ∨
    (c.isGetInfo = true ∧ ∃ S ec so x, r = gres S ec so x ∧ x.1 = "OSError") ∨
    (c.rpFlag = some true ∧
      ((∃ S ec so p m, r = pres S ec so p m) ∨ (∃ S ec so ps m, r = presL S ec so ps m))) ∨
    (c.rpFlag = some false ∧
      ((∃ S ec so n m cl, r = ores S ec so n m ∧ S.vstore.find n = some cl) ∨
       (∃ S ec so ns, r = oresL S ec so ns ∧ ∀ n ∈ ns, (S.vstore.find n).isSome) ∨
       (c.isExtract = true ∧ ∃ S ec so fs m, r = fres S ec so fs m))) ∨
    (c.isGetInfo = true ∧ ∃ S info, r = ires S info)))

/-- A 10-second 1920x1080 test clip. -/
def clipA : Clip := ⟨10, 1920, 1080, 24, true⟩

/-- A 4-second test clip. -/
def clipB : Clip := ⟨4, 1280, 720, 30, false⟩

/-- A 3-second audio clip. -/
def audioA : Clip := ⟨3, 0, 0, 44100, true⟩

/-- A concrete test environment: two openable video files, one audio file,
an image, an image folder, working text rendering, and all writes succeed. -/
def E0 : Env where
  openFile := fun p => if p = "a.mp4" then some clipA
    else if p = "b.mp4" then some clipB else none
  openAudio := fun p => if p = "a.mp3" then some audioA else none
  openImage := fun p => if p = "logo.png" then some ⟨0, 100, 100, 0, false⟩ else none
  openImageSeq := fun p => if p = "frames" then some ⟨2, 640, 480, 0, false⟩ else none
  renderText := fun _ => some ⟨0, 200, 50, 0, false⟩
  writeOk := fun _ => true

/-- Empty stores. -/
def S0 : Stores := ⟨⟨[], 0⟩, ⟨[], 0⟩⟩

/-- Stores whose VideoStore already caches `clipA` under reference 0. -/
def S6 : Stores := ⟨⟨[(0, clipA)], 1⟩, ⟨[], 0⟩⟩

/-- The envelope carries exactly one path-output field and no object-output
field. -/
def pathOut (ev : Envelope) : Prop :=
  (ev.output_path.isSome ∨ ev.output_paths.isSome) ∧
  ev.output_object = none ∧ ev.output_objects = none ∧
  ¬(ev.output_path.isSome ∧ ev.output_paths.isSome)

/-- The envelope carries exactly one object-output field and no path-output
field. -/
def objOut (ev : Envelope) : Prop :=
  (ev.output_object.isSome ∨ ev.output_objects.isSome) ∧
  ev.output_path = none ∧ ev.output_paths = none ∧
  ¬(ev.output_object.isSome ∧ ev.output_objects.isSome)

/-- The envelope carries none of the four output fields. -/
def noOut (ev : Envelope) : Prop :=
  ev.output_path = none ∧ ev.output_paths = none ∧
  ev.output_object = none ∧ ev.output_objects = none

/-- Whether an `output_object` value is an Object Reference (as opposed to
the raw frame list of `extract_frames`). -/
def OutVal.isRef : OutVal → Bool
  | .ref _ => true
  | .frames _ => false

/-- A freshly stored clip is found under the returned reference. -/
theorem find_storeClip (st : Store) (c : Clip) :
    (storeClip st c).2.find st.nextRef = some c := by
  simp [storeClip, Store.find, List.lookup]

/-- A failing `load` means the identifier missed the cache. -/
theorem loadVideo_error_lookup {E : Env} {st : Store} {x : Ident} {xc : Exc}
    (h : loadVideo E st x = .error xc) : storeLookup st x = none := by
  unfold loadVideo at h
  cases hx : storeLookup st x with
  | some c => rw [hx] at h; exact absurd h (by simp)
  | none => rfl

/-- A failing audio `load` means the identifier missed the cache. -/
theorem loadAudio_error_lookup {E : Env} {st : Store} {x : Ident} {xc : Exc}
    (h : loadAudio E st x = .error xc) : storeLookup st x = none := by
  unfold loadAudio at h
  cases hx : storeLookup st x with
  | some c => rw [hx] at h; exact absurd h (by simp)
  | none => rfl

/-- A cached identifier is loaded directly from the store, whatever the
Media Engine can open. -/
theorem loadVideo_cached {st : Store} {x : Ident} {c : Clip}
    (h : storeLookup st x = some c) (E : Env) : loadVideo E st x = .ok c := by
  unfold loadVideo
  rw [h]

/-- A cached identifier costs no Media Engine call to load. -/
theorem loadCalls_cached {st : Store} {x : Ident} {c : Clip}
    (h : storeLookup st x = some c) : loadCalls st x = 0 := by
  simp [loadCalls, h]

/-- The errors propagated by the segment loop are subclip bound errors. -/
theorem subclipSeq_error_ty {video : Clip} {ps : List (ℚ × ℚ)} {x : Exc}
    (h : subclipSeq video ps = .error x) : x.1 = "ValueError" := by
  induction ps with
  | nil => exact absurd h (by simp [subclipSeq])
  | cons p rest ih =>
    unfold subclipSeq at h
    obtain ⟨s, e⟩ := p
    cases hs : subclip video s e with
    | error xc =>
      rw [hs] at h
      simp only [Except.error.injEq] at h
      subst h
      unfold subclip at hs
      split at hs
      · exact absurd hs (by simp)
      · cases hs; rfl
    | ok c =>
      rw [hs] at h
      cases hr : subclipSeq video rest with
      | error xc =>
        rw [hr] at h
        simp only [Except.error.injEq] at h
        subst h
        exact ih hr
      | ok cs => rw [hr] at h; exact absurd h (by simp)

/-- The errors propagated by the split write loop are write errors. -/
theorem writeSeq_error_ty {E : Env} {dir name : String} {cs : List Clip} {i : ℕ} {x : Exc}
    (h : writeSeq E dir name cs i = .error x) : x.1 = "IOError" := by
  induction cs generalizing i with
  | nil => exact absurd h (by simp [writeSeq])
  | cons c rest ih =>
    unfold writeSeq at h
    cases hw : E.writeOk (partPath dir name i) with
    | false =>
      rw [hw] at h
      simp only [Bool.false_eq_true, if_false, Except.error.injEq] at h
      rw [← h]
    | true =>
      rw [hw] at h
      simp only [if_true] at h
      cases hr : writeSeq E dir name rest (i + 1) with
      | error xc =>
        rw [hr] at h
        simp only [Except.error.injEq] at h
        subst h
        exact ih hr
      | ok ps => rw [hr] at h; exact absurd h (by simp)

/-- LeafForm introduction: validation failure. -/
theorem lf_val {S0 : Stores} {c : Call} {r : OpResult} (h : c.validB = false)
    (hr : r = vres S0 c.valMsg.1 c.valMsg.2) : LeafForm S0 c r :=
  Or.inl ⟨h, hr⟩

/-- LeafForm introduction: caught exception. -/
theorem lf_exc {S0 : Stores} {c : Call} {r : OpResult} (h : c.validB = true)
    (S : Stores) (ec so : ℕ) (x : Exc) (m : String) (hr : r = eres S ec so x m)
    (hx : x.1 = "NotFound" →
      (∃ v, v ∈ c.videoIdents ∧ storeLookup S0.vstore v = none) ∨
      (∃ a, a ∈ c.audioIdents ∧ storeLookup S0.astore a = none)) : LeafForm S0 c r :=
  Or.inr ⟨h, Or.inl ⟨S, ec, so, x, m, hr, hx⟩⟩

/-- LeafForm introduction: caught exception that is not a NotFound. -/
theorem lf_exc_ne {S0 : Stores} {c : Call} {r : OpResult} (h : c.validB = true)
    (S : Stores) (ec so : ℕ) (x : Exc) (m : String) (hr : r = eres S ec so x m)
    (hx : x.1 ≠ "NotFound") : LeafForm S0 c r :=
  lf_exc h S ec so x m hr (fun hn => absurd hn hx)

/-- LeafForm introduction: `get_video_info` failure. -/
theorem lf_gres {S0 : Stores} {c : Call} {r : OpResult} (h : c.validB = true)
    (hg : c.isGetInfo = true) (S : Stores) (ec so : ℕ) (x : Exc)
    (hr : r = gres S ec so x) (hx : x.1 = "OSError") : LeafForm S0 c r :=
  Or.inr ⟨h, Or.inr (Or.inl ⟨hg, S, ec, so, x, hr, hx⟩)⟩

/-- LeafForm introduction: `get_video_info` success. -/
theorem lf_ires {S0 : Stores} {c : Call} {r : OpResult} (h : c.validB = true)
    (hg : c.isGetInfo = true) (S : Stores) (info : VideoInfo)
    (hr : r = ires S info) : LeafForm S0 c r :=
  Or.inr ⟨h, Or.inr (Or.inr (Or.inr (Or.inr ⟨hg, S, info, hr⟩)))⟩

/-- LeafForm introduction: path success. -/
theorem lf_pres {S0 : Stores} {c : Call} {r : OpResult} (h : c.validB = true)
    (hrp : c.rpFlag = some true) (S : Stores) (ec so : ℕ) (p m : String)
    (hr : r = pres S ec so p m) : LeafForm S0 c r :=
  Or.inr ⟨h, Or.inr (Or.inr (Or.inl ⟨hrp, Or.inl ⟨S, ec, so, p, m, hr⟩⟩))⟩

/-- LeafForm introduction: path-list success. -/
theorem lf_presL {S0 : Stores} {c : Call} {r : OpResult} (h : c.validB = true)
    (hrp : c.rpFlag = some true) (S : Stores) (ec so : ℕ) (ps : List String) (m : String)
    (hr : r = presL S ec so ps m) : LeafForm S0 c r :=
  Or.inr ⟨h, Or.inr (Or.inr (Or.inl ⟨hrp, Or.inr ⟨S, ec, so, ps, m, hr⟩⟩))⟩

/-- LeafForm introduction: object success. -/
theorem lf_ores {S0 : Stores} {c : Call} {r : OpResult} (h : c.validB = true)
    (hrp : c.rpFlag = some false) (S : Stores) (ec so n : ℕ) (m : Option String)
    (cl : Clip) (hr : r = ores S ec so n m) (hf : S.vstore.find n = some cl) :
    LeafForm S0 c r :=
  Or.inr ⟨h, Or.inr (Or.inr (Or.inr (Or.inl
    ⟨hrp, Or.inl ⟨S, ec, so, n, m, cl, hr, hf⟩⟩)))⟩

/-- LeafForm introduction: object-list success. -/
theorem lf_oresL {S0 : Stores} {c : Call} {r : OpResult} (h : c.validB = true)
    (hrp : c.rpFlag = some false) (S : Stores) (ec so : ℕ) (ns : List ℕ)
    (hr : r = oresL S ec so ns) (hf : ∀ n ∈ ns, (S.vstore.find n).isSome) :
    LeafForm S0 c r :=
  Or.inr ⟨h, Or.inr (Or.inr (Or.inr (Or.inl
    ⟨hrp, Or.inr (Or.inl ⟨S, ec, so, ns, hr, hf⟩)⟩)))⟩

/-- LeafForm introduction: raw-frames success of `extract_frames`. -/
theorem lf_fres {S0 : Stores} {c : Call} {r : OpResult} (h : c.validB = true)
    (hrp : c.rpFlag = some false) (hx : c.isExtract = true) (S : Stores)
    (ec so : ℕ) (fs : List ℕ) (m : String) (hr : r = fres S ec so fs m) :
    LeafForm S0 c r :=
  Or.inr ⟨h, Or.inr (Or.inr (Or.inr (Or.inl
    ⟨hrp, Or.inr (Or.inr ⟨hx, S, ec, so, fs, m, hr⟩)⟩)))⟩

/-- Every result of the shared emit step fits the leaf classification. -/
theorem lf_emit1 {S0 : Stores} {c : Call} (h : c.validB = true) {rp : Bool}
    (hrp : c.rpFlag = some rp) (E : Env) (S : Stores) (ec so : ℕ) (cl : Clip)
    (outp okM failM : String) (sm : Option String) :
    LeafForm S0 c (emit1 E S ec so cl outp okM failM sm rp) := by
  cases rp with
  | true =>
    unfold emit1
    cases hw : E.writeOk outp with
    | true =>
      simp only [hw, if_true]
      exact lf_pres h hrp S (ec + 1) so outp okM rfl
    | false =>
      simp only [hw, Bool.false_eq_true, if_false]
      exact lf_exc_ne h S (ec + 1) so ("IOError", "failed to write " ++ outp) failM rfl
        (by simp)
  | false =>
    unfold emit1
    simp only [Bool.false_eq_true, if_false]
    exact lf_ores h hrp _ ec (so + 1) _ sm cl rfl (find_storeClip S.vstore cl)

/-- A failing subclip is a bounds error. -/
theorem subclip_error_ty {c : Clip} {s e : ℚ} {x : Exc}
    (h : subclip c s e = .error x) : x.1 = "ValueError" := by
  unfold subclip at h
  split at h
  · exact absurd h (by simp)
  · cases h; rfl

/-- Storing registers as many references as clips. -/
theorem storeAll_length (st : Store) (cs : List Clip) :
    (storeAll st cs).1.length = cs.length := by
  induction cs generalizing st with
  | nil => rfl
  | cons c rest ih => simp [storeAll, ih]

/-- The reference counter after a single store. -/
theorem storeClip_nextRef (st : Store) (c : Clip) :
    (storeClip st c).2.nextRef = st.nextRef + 1 := rfl

/-- Storing a clip does not shadow references below the counter. -/
theorem find_storeClip_old {st : Store} {k : ℕ} (c : Clip) (h : k ≠ st.nextRef) :
    (storeClip st c).2.find k = st.find k := by
  have hb : (k == st.nextRef) = false := beq_eq_false_iff_ne.mpr h
  simp [storeClip, Store.find, List.lookup, hb]

/-- A batch store does not shadow references below the counter. -/
theorem storeAll_find_old (cs : List Clip) (st : Store) (k : ℕ) (h : k < st.nextRef) :
    (storeAll st cs).2.find k = st.find k := by
  induction cs generalizing st with
  | nil => rfl
  | cons c rest ih =>
    have h2 : k < (storeClip st c).2.nextRef := by rw [storeClip_nextRef]; omega
    calc (storeAll st (c :: rest)).2.find k
        = (storeAll (storeClip st c).2 rest).2.find k := rfl
      _ = (storeClip st c).2.find k := ih _ h2
      _ = st.find k := find_storeClip_old c (Nat.ne_of_lt h)

/-- Each reference returned by a batch store resolves, in the store after
the batch, to the clip stored under it. -/
theorem storeAll_zip_find (cs : List Clip) (st : Store) :
    ∀ p ∈ (storeAll st cs).1.zip cs, (storeAll st cs).2.find p.1 = some p.2 := by
  induction cs generalizing st with
  | nil => intro p hp; simp [storeAll] at hp
  | cons c rest ih =>
    intro p hp
    simp only [storeAll, List.zip_cons_cons, List.mem_cons] at hp
    rcases hp with rfl | hp
    · show (storeAll (storeClip st c).2 rest).2.find st.nextRef = some c
      rw [storeAll_find_old _ _ _ (by rw [storeClip_nextRef]; omega)]
      exact find_storeClip st c
    · exact ih _ _ hp

/-- Every reference returned by a batch store resolves in the store after
the batch. -/
theorem storeAll_found (st : Store) (cs : List Clip) :
    ∀ n ∈ (storeAll st cs).1, ((storeAll st cs).2.find n).isSome := by
  induction cs generalizing st with
  | nil => intro n hn; simp [storeAll] at hn
  | cons c rest ih =>
    intro n hn
    simp only [storeAll, List.mem_cons] at hn
    rcases hn with rfl | hn
    · show (((storeAll (storeClip st c).2 rest).2).find st.nextRef).isSome
      rw [storeAll_find_old _ _ _ (by rw [storeClip_nextRef]; omega), find_storeClip]
      rfl
    · exact ih _ _ hn

/-- Every result of every operation fits the leaf classification. -/
theorem leafForm_all (E : Env) (S : Stores) (c : Call) : LeafForm S c (runOp E S c) := by
  cases c with
  | getVideoInfo v =>
    simp only [runOp]
    unfold get_video_info
    cases ho : engineOpen E v with
    | some video => simp only [ho]; exact lf_ires rfl rfl S _ rfl
    | none => simp only [ho]; exact lf_gres rfl rfl S 1 0 _ rfl rfl
  | trim v s e name rp =>
    simp only [runOp]
    unfold trim_video
    split_ifs with h1 h2
    · exact lf_val (by rcases h1 with h | h <;> simp [Call.validB, h])
        (by simp [Call.valMsg, h1])
    · exact lf_val (by simp [Call.validB, h2]) (by simp [Call.valMsg, h1])
    · have hvB : Call.validB (Call.trim v s e name rp) = true := by
        rw [not_or] at h1
        simp [Call.validB, h1.1, h1.2, h2]
      cases hl : loadVideo E S.vstore v with
      | error x =>
        simp only [hl]
        exact lf_exc hvB S _ 1 x _ rfl
          (fun _ => Or.inl ⟨v, by simp [Call.videoIdents], loadVideo_error_lookup hl⟩)
      | ok video =>
        simp only [hl]
        cases hsc : subclip video s e with
        | error x =>
          simp only [hsc]
          exact lf_exc_ne hvB S _ 1 x _ rfl (by simp [subclip_error_ty hsc])
        | ok trimmed =>
          simp only [hsc]
          exact lf_emit1 hvB rfl E S _ 1 _ _ _ _ _
  | merge v1 v2 name rp =>
    simp only [runOp]
    unfold merge_video
    cases hl1 : loadVideo E S.vstore v1 with
    | error x =>
      simp only [hl1]
      exact lf_exc rfl S _ 1 x _ rfl
        (fun _ => Or.inl ⟨v1, by simp [Call.videoIdents], loadVideo_error_lookup hl1⟩)
    | ok a =>
      simp only [hl1]
      cases hl2 : loadVideo E S.vstore v2 with
      | error x =>
        simp only [hl2]
        exact lf_exc rfl S _ 2 x _ rfl
          (fun _ => Or.inl ⟨v2, by simp [Call.videoIdents], loadVideo_error_lookup hl2⟩)
      | ok b =>
        simp only [hl2]
        exact @lf_emit1 S (Call.merge v1 v2 name rp) rfl rp rfl E S _ 2 _ _ _ _ _
  | resize v wh name rp =>
    simp only [runOp]
    unfold resize_video
    split_ifs with h1
    · exact lf_val (by rcases h1 with h | h <;> simp [Call.validB, h])
        (by simp [Call.valMsg])
    · have hvB : Call.validB (Call.resize v wh name rp) = true := by
        rw [not_or] at h1
        simp [Call.validB, h1.1, h1.2]
      cases hl : loadVideo E S.vstore v with
      | error x =>
        simp only [hl]
        exact lf_exc hvB S _ 1 x _ rfl
          (fun _ => Or.inl ⟨v, by simp [Call.videoIdents], loadVideo_error_lookup hl⟩)
      | ok video =>
        simp only [hl]
        exact lf_emit1 hvB rfl E S _ 1 _ _ _ _ _
  | crop v x1 y1 x2 y2 name rp =>
    simp only [runOp]
    unfold crop_video
    split_ifs with h1
    · exact lf_val (by rcases h1 with h | h | h | h <;> simp [Call.validB, h])
        (by simp [Call.valMsg])
    · have hvB : Call.validB (Call.crop v x1 y1 x2 y2 name rp) = true := by
        simp only [not_or] at h1
        simp [Call.validB, h1.1, h1.2.1, h1.2.2.1, h1.2.2.2]
      cases hl : loadVideo E S.vstore v with
      | error x =>
        simp only [hl]
        exact lf_exc hvB S _ 1 x _ rfl
          (fun _ => Or.inl ⟨v, by simp [Call.videoIdents], loadVideo_error_lookup hl⟩)
      | ok video =>
        simp only [hl]
        exact lf_emit1 hvB rfl E S _ 1 _ _ _ _ _
  | rotate v angle name rp =>
    simp only [runOp]
    unfold rotate_video
    cases hl : loadVideo E S.vstore v with
    | error x =>
      simp only [hl]
      exact lf_exc rfl S _ 1 x _ rfl
        (fun _ => Or.inl ⟨v, by simp [Call.videoIdents], loadVideo_error_lookup hl⟩)
    | ok video =>
      simp only [hl]
      exact @lf_emit1 S (Call.rotate v angle name rp) rfl rp rfl E S _ 1 _ _ _ _ _
  | speedUp v f name rp =>
    simp only [runOp]
    unfold speed_up_video
    split_ifs with h1
    · exact lf_val (by simp [Call.validB, h1]) (by simp [Call.valMsg])
    · have hvB : Call.validB (Call.speedUp v f name rp) = true := by
        simp [Call.validB, h1]
      cases hl : loadVideo E S.vstore v with
      | error x =>
        simp only [hl]
        exact lf_exc hvB S _ 1 x _ rfl
          (fun _ => Or.inl ⟨v, by simp [Call.videoIdents], loadVideo_error_lookup hl⟩)
      | ok video =>
        simp only [hl]
        exact lf_emit1 hvB rfl E S _ 1 _ _ _ _ _
  | addAudio v a name rp =>
    simp only [runOp]
    unfold add_audio
    cases hl : loadVideo E S.vstore v with
    | error x =>
      simp only [hl]
      exact lf_exc rfl S _ 1 x _ rfl
        (fun _ => Or.inl ⟨v, by simp [Call.videoIdents], loadVideo_error_lookup hl⟩)
    | ok video =>
      simp only [hl]
      cases ha : loadAudio E S.astore a with
      | error x =>
        simp only [ha]
        exact lf_exc rfl S _ 2 x _ rfl
          (fun _ => Or.inr ⟨a, by simp [Call.audioIdents], loadAudio_error_lookup ha⟩)
      | ok audio =>
        simp only [ha]
        exact @lf_emit1 S (Call.addAudio v a name rp) rfl rp rfl E S _ 2 _ _ _ _ _
  | fadeIn v d name rp =>
    simp only [runOp]
    unfold fadein_video
    split_ifs with h1
    · exact lf_val (by simp [Call.validB, h1]) (by simp [Call.valMsg])
    · have hvB : Call.validB (Call.fadeIn v d name rp) = true := by
        simp [Call.validB, h1]
      cases hl : loadVideo E S.vstore v with
      | error x =>
        simp only [hl]
        exact lf_exc hvB S _ 1 x _ rfl
          (fun _ => Or.inl ⟨v, by simp [Call.videoIdents], loadVideo_error_lookup hl⟩)
      | ok video =>
        simp only [hl]
        exact lf_emit1 hvB rfl E S _ 1 _ _ _ _ _
  | fadeOut v d name rp =>
    simp only [runOp]
    unfold fadeout_video
    split_ifs with h1
    · exact lf_val (by simp [Call.validB, h1]) (by simp [Call.valMsg])
    · have hvB : Call.validB (Call.fadeOut v d name rp) = true := by
        simp [Call.validB, h1]
      cases hl : loadVideo E S.vstore v with
      | error x =>
        simp only [hl]
        exact lf_exc hvB S _ 1 x _ rfl
          (fun _ => Or.inl ⟨v, by simp [Call.videoIdents], loadVideo_error_lookup hl⟩)
      | ok video =>
        simp only [hl]
        exact lf_emit1 hvB rfl E S _ 1 _ _ _ _ _
  | textOverlay v t x y fs color d name rp magick =>
    simp only [runOp]
    unfold add_text_overlay
    split_ifs with h1 h2 h3
    · exact lf_val (by simp [Call.validB, h1]) (by simp [Call.valMsg, h1])
    · exact lf_val (by simp [Call.validB, h2]) (by simp [Call.valMsg, h1, h2])
    · exact lf_val (by simp [Call.validB, h3]) (by simp [Call.valMsg, h1, h2])
    · have hvB : Call.validB (Call.textOverlay v t x y fs color d name rp magick) = true := by
        simp [Call.validB, h1, h2, h3]
      cases hl : loadVideo E S.vstore v with
      | error xc =>
        simp only [hl]
        exact lf_exc hvB S _ 1 xc _ rfl
          (fun _ => Or.inl ⟨v, by simp [Call.videoIdents], loadVideo_error_lookup hl⟩)
      | ok video =>
        simp only [hl]
        cases hr : E.renderText t with
        | none =>
          simp only [hr]
          exact lf_exc_ne hvB S _ 1 _ _ rfl (by simp)
        | some tclip =>
          simp only [hr]
          exact lf_emit1 hvB rfl E S _ 1 _ _ _ _ _
  | imageOverlay v img x y d name rp =>
    simp only [runOp]
    unfold add_image_overlay
    split_ifs with h1
    · exact lf_val (by simp [Call.validB, h1]) (by simp [Call.valMsg])
    · have hvB : Call.validB (Call.imageOverlay v img x y d name rp) = true := by
        simp [Call.validB, h1]
      cases hl : loadVideo E S.vstore v with
      | error xc =>
        simp only [hl]
        exact lf_exc hvB S _ 1 xc _ rfl
          (fun _ => Or.inl ⟨v, by simp [Call.videoIdents], loadVideo_error_lookup hl⟩)
      | ok video =>
        simp only [hl]
        cases hi : E.openImage img with
        | none =>
          simp only [hi]
          exact lf_exc_ne hvB S _ 1 _ _ rfl (by simp)
        | some logo =>
          simp only [hi]
          exact lf_emit1 hvB rfl E S _ 1 _ _ _ _ _
  | grayscale v name rp =>
    simp only [runOp]
    unfold grayscale_video
    cases hl : loadVideo E S.vstore v with
    | error x =>
      simp only [hl]
      exact lf_exc rfl S _ 1 x _ rfl
        (fun _ => Or.inl ⟨v, by simp [Call.videoIdents], loadVideo_error_lookup hl⟩)
    | ok video =>
      simp only [hl]
      exact @lf_emit1 S (Call.grayscale v name rp) rfl rp rfl E S _ 1 _ _ _ _ _
  | imagesToVideo folder fps name rp =>
    simp only [runOp]
    unfold images_to_video
    cases hi : E.openImageSeq folder with
    | none =>
      simp only [hi]
      exact lf_exc_ne rfl S 1 0 _ _ rfl (by simp)
    | some cl =>
      simp only [hi]
      exact @lf_emit1 S (Call.imagesToVideo folder fps name rp) rfl rp rfl E S 1 0 _ _ _ _ _
  | extractFrames v s e fps folder rp =>
    simp only [runOp]
    unfold extract_frames
    cases hl : loadVideo E S.vstore v with
    | error x =>
      simp only [hl]
      exact lf_exc rfl S _ 1 x _ rfl
        (fun _ => Or.inl ⟨v, by simp [Call.videoIdents], loadVideo_error_lookup hl⟩)
    | ok video =>
      simp only [hl]
      cases hsc : subclip video s e with
      | error x =>
        simp only [hsc]
        exact lf_exc_ne rfl S _ 1 x _ rfl (by simp [subclip_error_ty hsc])
      | ok sub =>
        simp only [hsc]
        split
        · next hrp =>
          cases hw : E.writeOk folder with
          | true =>
            simp only [hw, if_true]
            exact lf_pres rfl (by simp [Call.rpFlag, hrp]) S _ 1 folder _ rfl
          | false =>
            simp only [hw, Bool.false_eq_true, if_false]
            exact lf_exc_ne rfl S _ 1 _ _ rfl (by simp)
        · next hrp =>
          have hrp2 : rp = false := by simpa using hrp
          exact lf_fres rfl (by simp [Call.rpFlag, hrp2]) rfl S _ 1 _ _ rfl
  | mirror v name rp =>
    simp only [runOp]
    unfold mirror_video
    cases hl : loadVideo E S.vstore v with
    | error x =>
      simp only [hl]
      exact lf_exc rfl S _ 1 x _ rfl
        (fun _ => Or.inl ⟨v, by simp [Call.videoIdents], loadVideo_error_lookup hl⟩)
    | ok video =>
      simp only [hl]
      exact @lf_emit1 S (Call.mirror v name rp) rfl rp rfl E S _ 1 _ _ _ _ _
  | splitAtTimes v times name rp =>
    simp only [runOp]
    unfold split_video_at_times
    cases hl : loadVideo E S.vstore v with
    | error x =>
      simp only [hl]
      exact lf_exc rfl S _ 1 x _ rfl
        (fun _ => Or.inl ⟨v, by simp [Call.videoIdents], loadVideo_error_lookup hl⟩)
    | ok video =>
      simp only [hl]
      cases hsq : subclipSeq video (adjPairs (0 :: (times ++ [video.duration]))) with
      | error x =>
        simp only [hsq]
        exact lf_exc_ne rfl S _ 1 x _ rfl (by simp [subclipSeq_error_ty hsq])
      | ok segments =>
        simp only [hsq]
        split
        · next hrp =>
          cases hws : writeSeq E (get_output_path name) name segments 0 with
          | error x =>
            simp only [hws]
            exact lf_exc_ne rfl S _ 1 x _ rfl (by simp [writeSeq_error_ty hws])
          | ok ps =>
            simp only [hws]
            exact lf_presL rfl (by simp [Call.rpFlag, hrp]) S _ 1 ps _ rfl
        · next hrp =>
          have hrp2 : rp = false := by simpa using hrp
          exact lf_oresL rfl (by simp [Call.rpFlag, hrp2]) _ _ _ _ rfl
            (by intro n hn; exact storeAll_found S.vstore segments n hn)
  | convertFormat v name codec fps bitrate rp =>
    simp only [runOp]
    unfold convert_video_format
    cases hl : loadVideo E S.vstore v with
    | error x =>
      simp only [hl]
      exact lf_exc rfl S _ 1 x _ rfl
        (fun _ => Or.inl ⟨v, by simp [Call.videoIdents], loadVideo_error_lookup hl⟩)
    | ok video =>
      simp only [hl]
      exact @lf_emit1 S (Call.convertFormat v name codec fps bitrate rp) rfl rp rfl E S _ 1 _ _ _ _ _
  | videoOverlay vb vo x y opacity name rp d =>
    simp only [runOp]
    unfold add_video_overlay
    cases hl1 : loadVideo E S.vstore vb with
    | error xc =>
      simp only [hl1]
      exact lf_exc rfl S _ 1 xc _ rfl
        (fun _ => Or.inl ⟨vb, by simp [Call.videoIdents], loadVideo_error_lookup hl1⟩)
    | ok base =>
      simp only [hl1]
      cases hl2 : loadVideo E S.vstore vo with
      | error xc =>
        simp only [hl2]
        exact lf_exc rfl S _ 2 xc _ rfl
          (fun _ => Or.inl ⟨vo, by simp [Call.videoIdents], loadVideo_error_lookup hl2⟩)
      | ok over =>
        simp only [hl2]
        exact @lf_emit1 S (Call.videoOverlay vb vo x y opacity name rp d) rfl rp rfl E S _ 2 _ _ _ _ _

/-- `get_video_info` is the one operation without a `return_path` flag. -/
theorem rpFlag_getInfo (c : Call) (h : c.isGetInfo = true) : c.rpFlag = none := by
  cases c <;> simp_all [Call.isGetInfo, Call.rpFlag]

/-- C1 (amended): for every operation that takes the caller-supplied
`return_path` flag (every operation except `get_video_info`), a
`success=true` envelope carries exactly one of `output_path`/`output_paths`
or `output_object`/`output_objects`, a path field when `return_path=true`
and an object field when `return_path=false`, and a `success=false`
envelope carries none of these output fields. -/
theorem C1_amended (E : Env) (S : Stores) (c : Call) (rp : Bool)
    (hrp : c.rpFlag = some rp) :
    ((runOp E S c).out.success = true →
      ((rp = true → pathOut (runOp E S c).out) ∧
       (rp = false → objOut (runOp E S c).out))) ∧
    ((runOp E S c).out.success = false → noOut (runOp E S c).out) := by
  have hlf := leafForm_all E S c
  rcases hlf with ⟨hv, hr⟩ | ⟨hv, hcase⟩
  · rw [hr]
    constructor
    · intro hs; exact absurd hs (by simp [vres])
    · intro _; simp [vres, noOut]
  · rcases hcase with ⟨S2, ec, so, x, m, hr, _⟩ | ⟨hg, _⟩ | ⟨hrt, hps⟩ | ⟨hrf, hos⟩ | ⟨hg, _⟩
    · rw [hr]
      constructor
      · intro hs; exact absurd hs (by simp [eres])
      · intro _; simp [eres, noOut]
    · rw [rpFlag_getInfo _ hg] at hrp; exact absurd hrp (by simp)
    · rw [hrp] at hrt
      have hrpt : rp = true := Option.some.inj hrt
      subst hrpt
      rcases hps with ⟨S2, ec, so, p, m, hr⟩ | ⟨S2, ec, so, ps, m, hr⟩ <;> rw [hr]
      · simp [pres, pathOut, noOut]
      · simp [presL, pathOut, noOut]
    · rw [hrp] at hrf
      have hrpf : rp = false := Option.some.inj hrf
      subst hrpf
      rcases hos with ⟨S2, ec, so, n, m, cl, hr, _⟩ | ⟨S2, ec, so, ns, hr, _⟩ |
        ⟨_, S2, ec, so, fs, m, hr⟩ <;> rw [hr]
      · simp [ores, objOut, noOut]
      · simp [oresL, objOut, noOut]
      · simp [fres, objOut, noOut]
    · rw [rpFlag_getInfo _ hg] at hrp; exact absurd hrp (by simp)

/-- C1 witness: a successful `trim` with `return_path=true` on a concrete
input carries exactly the path output field. -/
theorem C1_w :
    ((runOp E0 S0 (Call.trim (Ident.path "a.mp4") 2 5 "t.mp4" true)).out.success = true →
      ((true = true →
        pathOut (runOp E0 S0 (Call.trim (Ident.path "a.mp4") 2 5 "t.mp4" true)).out) ∧
       (true = false →
        objOut (runOp E0 S0 (Call.trim (Ident.path "a.mp4") 2 5 "t.mp4" true)).out))) ∧
    ((runOp E0 S0 (Call.trim (Ident.path "a.mp4") 2 5 "t.mp4" true)).out.success = false →
      noOut (runOp E0 S0 (Call.trim (Ident.path "a.mp4") 2 5 "t.mp4" true)).out) :=
  C1_amended E0 S0 (Call.trim (Ident.path "a.mp4") 2 5 "t.mp4" true) true rfl

/-- C1 counterexample: `get_video_info` on an openable path returns a
`success=true` envelope that carries none of the four output fields, so the
claim as stated over every operation is false. -/
theorem C1_cex :
    (get_video_info E0 S0 (Ident.path "a.mp4")).out.success = true ∧
    noOut (get_video_info E0 S0 (Ident.path "a.mp4")).out := by
  unfold noOut
  decide

/-- C2 (confirmed): an argument violating an operation's stated
precondition makes the operation return the validation envelope —
`success=false` with the source's descriptive `error` and `message` —
with zero Media Engine invocations, zero Object Store operations, and the
stores untouched. -/
theorem C2_validation (E : Env) (S : Stores) (c : Call) (hv : c.validB = false) :
    runOp E S c = vres S c.valMsg.1 c.valMsg.2 ∧
    (runOp E S c).out.success = false ∧
    (runOp E S c).out.error = some c.valMsg.1 ∧
    (runOp E S c).out.message = some c.valMsg.2 ∧
    (runOp E S c).engineCalls = 0 ∧
    (runOp E S c).storeOps = 0 ∧
    (runOp E S c).stores = S := by
  have hlf := leafForm_all E S c
  rcases hlf with ⟨_, hr⟩ | ⟨hvT, _⟩
  · rw [hr]; exact ⟨rfl, rfl, rfl, rfl, rfl, rfl, rfl⟩
  · rw [hvT] at hv; cases hv

/-- C2 witness: `speed_up_video` with `speed=0` on a concrete input. -/
theorem C2_w :
    runOp E0 S0 (Call.speedUp (Ident.path "a.mp4") 0 "s.mp4" true) =
      vres S0 (Call.speedUp (Ident.path "a.mp4") 0 "s.mp4" true).valMsg.1
        (Call.speedUp (Ident.path "a.mp4") 0 "s.mp4" true).valMsg.2 ∧
    (runOp E0 S0 (Call.speedUp (Ident.path "a.mp4") 0 "s.mp4" true)).out.success = false ∧
    (runOp E0 S0 (Call.speedUp (Ident.path "a.mp4") 0 "s.mp4" true)).out.error =
      some (Call.speedUp (Ident.path "a.mp4") 0 "s.mp4" true).valMsg.1 ∧
    (runOp E0 S0 (Call.speedUp (Ident.path "a.mp4") 0 "s.mp4" true)).out.message =
      some (Call.speedUp (Ident.path "a.mp4") 0 "s.mp4" true).valMsg.2 ∧
    (runOp E0 S0 (Call.speedUp (Ident.path "a.mp4") 0 "s.mp4" true)).engineCalls = 0 ∧
    (runOp E0 S0 (Call.speedUp (Ident.path "a.mp4") 0 "s.mp4" true)).storeOps = 0 ∧
    (runOp E0 S0 (Call.speedUp (Ident.path "a.mp4") 0 "s.mp4" true)).stores = S0 :=
  C2_validation E0 S0 (Call.speedUp (Ident.path "a.mp4") 0 "s.mp4" true) (by decide)

/-- C3 (confirmed): once validation has passed, any failure — resolution,
Media Engine call, or emission — is caught at the operation boundary and
returned as a `success=false` envelope carrying both `error` and
`error_type`; no operation propagates a raw exception. -/
theorem C3_boundary (E : Env) (S : Stores) (c : Call) (hv : c.validB = true)
    (hf : (runOp E S c).out.success = false) :
    (runOp E S c).out.error.isSome ∧ (runOp E S c).out.error_type.isSome := by
  have hlf := leafForm_all E S c
  rcases hlf with ⟨hvF, _⟩ | ⟨_, hcase⟩
  · rw [hvF] at hv; cases hv
  · rcases hcase with ⟨S2, ec, so, x, m, hr, _⟩ | ⟨_, S2, ec, so, x, hr, _⟩ |
      ⟨_, hps⟩ | ⟨_, hos⟩ | ⟨_, S2, info, hr⟩
    · rw [hr]; simp [eres]
    · rw [hr]; simp [gres]
    · rcases hps with ⟨S2, ec, so, p, m, hr⟩ | ⟨S2, ec, so, ps, m, hr⟩ <;>
        rw [hr] at hf <;> simp [pres, presL] at hf
    · rcases hos with ⟨S2, ec, so, n, m, cl, hr, _⟩ | ⟨S2, ec, so, ns, hr, _⟩ |
        ⟨_, S2, ec, so, fs, m, hr⟩ <;> rw [hr] at hf <;> simp [ores, oresL, fres] at hf
    · rw [hr] at hf; simp [ires] at hf

/-- C3 witness: a `trim` with valid arguments on an unopenable path fails
with both `error` and `error_type` present. -/
theorem C3_w :
    (runOp E0 S0 (Call.trim (Ident.path "nope.mp4") 0 1 "t.mp4" true)).out.error.isSome ∧
    (runOp E0 S0 (Call.trim (Ident.path "nope.mp4") 0 1 "t.mp4" true)).out.error_type.isSome :=
  C3_boundary E0 S0 (Call.trim (Ident.path "nope.mp4") 0 1 "t.mp4" true)
    (by decide) (by decide)

/-- C10 (confirmed): a `success=false` envelope carries `error_type` exactly
when validation passed (the failure came from the generic exception
handler); a validation failure carries `error` and `message` but no
`error_type`, so the two failure kinds are distinguishable. -/
theorem C10_errfields (E : Env) (S : Stores) (c : Call)
    (hf : (runOp E S c).out.success = false) :
    ((runOp E S c).out.error_type.isSome ↔ c.validB = true) ∧
    (c.validB = false →
      (runOp E S c).out.error.isSome ∧ (runOp E S c).out.message.isSome ∧
      (runOp E S c).out.error_type = none) := by
  have hlf := leafForm_all E S c
  rcases hlf with ⟨hv, hr⟩ | ⟨hv, hcase⟩
  · rw [hr]; simp [vres, hv]
  · rcases hcase with ⟨S2, ec, so, x, m, hr, _⟩ | ⟨_, S2, ec, so, x, hr, _⟩ |
      ⟨_, hps⟩ | ⟨_, hos⟩ | ⟨_, S2, info, hr⟩
    · rw [hr]; simp [eres, hv]
    · rw [hr]; simp [gres, hv]
    · rcases hps with ⟨S2, ec, so, p, m, hr⟩ | ⟨S2, ec, so, ps, m, hr⟩ <;>
        rw [hr] at hf <;> simp [pres, presL] at hf
    · rcases hos with ⟨S2, ec, so, n, m, cl, hr, _⟩ | ⟨S2, ec, so, ns, hr, _⟩ |
        ⟨_, S2, ec, so, fs, m, hr⟩ <;> rw [hr] at hf <;> simp [ores, oresL, fres] at hf
    · rw [hr] at hf; simp [ires] at hf

/-- C10 witness: an invalid `crop` fails without `error_type` and with
`error` and `message` present. -/
theorem C10_w :
    ((runOp E0 S0 (Call.crop (Ident.path "a.mp4") 0 0 0 0 "c.mp4" true)).out.error_type.isSome ↔
      (Call.crop (Ident.path "a.mp4") 0 0 0 0 "c.mp4" true).validB = true) ∧
    ((Call.crop (Ident.path "a.mp4") 0 0 0 0 "c.mp4" true).validB = false →
      (runOp E0 S0 (Call.crop (Ident.path "a.mp4") 0 0 0 0 "c.mp4" true)).out.error.isSome ∧
      (runOp E0 S0 (Call.crop (Ident.path "a.mp4") 0 0 0 0 "c.mp4" true)).out.message.isSome ∧
      (runOp E0 S0 (Call.crop (Ident.path "a.mp4") 0 0 0 0 "c.mp4" true)).out.error_type = none) :=
  C10_errfields E0 S0 (Call.crop (Ident.path "a.mp4") 0 0 0 0 "c.mp4" true) (by decide)

/-- C6 counterexample: with `clipA` cached under reference 0, `trim`
accepts the reference (resolving it through the store), but
`get_video_info` on the very same reference fails, because it opens the
identifier directly with the Media Engine instead of using the store's
load — so the claim that every operation, including `get_video_info`,
accepts an Object Reference is false. -/
theorem C6_cex :
    (trim_video E0 S6 (Ident.ref 0) 0 5 "t.mp4" false).out.success = true ∧
    (get_video_info E0 S6 (Ident.ref 0)).out.success = false := by
  decide

/-- C6 (amended): every operation except `get_video_info` resolves its
input identifiers through the Object Store's load, so a cached reference
is returned directly with no Media Engine open; consequently, with all
inputs cached, no operation other than `get_video_info` can fail with the
load's NotFound.  `get_video_info` opens the identifier directly with the
Engine and never accepts a reference. -/
theorem C6_amended :
    (∀ (E : Env) (st : Store) (n : ℕ) (cl : Clip), st.find n = some cl →
        loadVideo E st (Ident.ref n) = Except.ok cl ∧ loadCalls st (Ident.ref n) = 0) ∧
    (∀ (E : Env) (S : Stores) (c : Call), c.isGetInfo = false →
        (∀ v ∈ c.videoIdents, (storeLookup S.vstore v).isSome) →
        (∀ a ∈ c.audioIdents, (storeLookup S.astore a).isSome) →
        (runOp E S c).out.error_type ≠ some "NotFound") ∧
    (∀ (E : Env) (S : Stores) (n : ℕ),
        (get_video_info E S (Ident.ref n)).out.success = false) := by
  refine ⟨?_, ?_, ?_⟩
  · intro E st n cl h
    have h2 : storeLookup st (Ident.ref n) = some cl := h
    exact ⟨loadVideo_cached h2 E, loadCalls_cached h2⟩
  · intro E S c hgi hvid haud
    have hlf := leafForm_all E S c
    rcases hlf with ⟨_, hr⟩ | ⟨_, hcase⟩
    · rw [hr]; simp [vres]
    · rcases hcase with ⟨S2, ec, so, x, m, hr, hnf⟩ | ⟨hg, _⟩ | ⟨_, hps⟩ | ⟨_, hos⟩ | ⟨hg, _⟩
      · rw [hr]
        simp only [eres, ne_eq, Option.some.injEq]
        intro hx
        rcases hnf hx with ⟨v2, hv1, hv2⟩ | ⟨a2, ha1, ha2⟩
        · have hc := hvid v2 hv1; rw [hv2] at hc; cases hc
        · have hc := haud a2 ha1; rw [ha2] at hc; cases hc
      · rw [hg] at hgi; cases hgi
      · rcases hps with ⟨S2, ec, so, p, m, hr⟩ | ⟨S2, ec, so, ps, m, hr⟩ <;> rw [hr] <;>
          simp [pres, presL]
      · rcases hos with ⟨S2, ec, so, n, m, cl, hr, _⟩ | ⟨S2, ec, so, ns, hr, _⟩ |
          ⟨_, S2, ec, so, fs, m, hr⟩ <;> rw [hr] <;> simp [ores, oresL, fres]
      · rw [hg] at hgi; cases hgi
  · intro E S n
    rfl

/-- C6 witness: the amended statement applied at a cached reference and at
a concrete `mirror` call whose input is cached. -/
theorem C6_w :
    (loadVideo E0 S6.vstore (Ident.ref 0) = Except.ok clipA ∧
     loadCalls S6.vstore (Ident.ref 0) = 0) ∧
    (runOp E0 S6 (Call.mirror (Ident.ref 0) "m.mp4" false)).out.error_type ≠
      some "NotFound" :=
  ⟨C6_amended.1 E0 S6.vstore 0 clipA (by decide),
   C6_amended.2.1 E0 S6 (Call.mirror (Ident.ref 0) "m.mp4" false) (by decide)
     (by intro v hv
         simp only [Call.videoIdents, List.mem_singleton] at hv
         subst hv
         decide)
     (by intro a ha
         simp [Call.audioIdents] at ha)⟩

/-- C7 counterexample: a successful `extract_frames` with
`return_path=false` puts the raw frame list — not an Object Reference —
in `output_object`, and registers nothing in the Object Store (the stores
are unchanged), so the claim that this holds for `extract_frames` as for
every other operation is false. -/
theorem C7_cex :
    (extract_frames E0 S0 (Ident.path "a.mp4") 0 2 5 "fr" false).out.success = true ∧
    Option.map OutVal.isRef
      (extract_frames E0 S0 (Ident.path "a.mp4") 0 2 5 "fr" false).out.output_object =
      some false ∧
    (extract_frames E0 S0 (Ident.path "a.mp4") 0 2 5 "fr" false).stores = S0 := by
  decide

/-- C7 (amended): for every operation taking `return_path` except
`extract_frames`, a success with `return_path=false` returns in
`output_object` (or `output_objects`) references obtained by registering
the resulting clip(s) in the Object Store, and those references resolve in
the store after the call. -/
theorem C7_amended (E : Env) (S : Stores) (c : Call) (hx : c.isExtract = false)
    (hrp : c.rpFlag = some false)
    (hs : (runOp E S c).out.success = true) :
    (∃ n cl, (runOp E S c).out.output_object = some (OutVal.ref n) ∧
       (runOp E S c).stores.vstore.find n = some cl) ∨
    (∃ ns, (runOp E S c).out.output_objects = some ns ∧
       ∀ n ∈ ns, ((runOp E S c).stores.vstore.find n).isSome) := by
  have hlf := leafForm_all E S c
  rcases hlf with ⟨_, hr⟩ | ⟨_, hcase⟩
  · rw [hr] at hs; exact absurd hs (by simp [vres])
  · rcases hcase with ⟨S2, ec, so, x, m, hr, _⟩ | ⟨hg, _⟩ | ⟨hrt, _⟩ | ⟨_, hos⟩ | ⟨hg, _⟩
    · rw [hr] at hs; exact absurd hs (by simp [eres])
    · rw [rpFlag_getInfo _ hg] at hrp; exact absurd hrp (by simp)
    · rw [hrp] at hrt; exact absurd (Option.some.inj hrt) (by simp)
    · rcases hos with ⟨S2, ec, so, n, m, cl, hr, hf⟩ | ⟨S2, ec, so, ns, hr, hf⟩ |
        ⟨hxe, _⟩
      · rw [hr]
        exact Or.inl ⟨n, cl, by simp [ores], by simpa [ores] using hf⟩
      · rw [hr]
        exact Or.inr ⟨ns, by simp [oresL], by simpa [oresL] using hf⟩
      · rw [hxe] at hx; cases hx
    · rw [rpFlag_getInfo _ hg] at hrp; exact absurd hrp (by simp)

/-- C7 witness: the amended statement applied to a successful concrete
`trim` with `return_path=false`. -/
theorem C7_w :
    (∃ n cl,
      (runOp E0 S0 (Call.trim (Ident.path "a.mp4") 0 5 "t.mp4" false)).out.output_object =
        some (OutVal.ref n) ∧
      (runOp E0 S0 (Call.trim (Ident.path "a.mp4") 0 5 "t.mp4" false)).stores.vstore.find n =
        some cl) ∨
    (∃ ns,
      (runOp E0 S0 (Call.trim (Ident.path "a.mp4") 0 5 "t.mp4" false)).out.output_objects =
        some ns ∧
      ∀ n ∈ ns,
        ((runOp E0 S0 (Call.trim (Ident.path "a.mp4") 0 5 "t.mp4" false)).stores.vstore.find
          n).isSome) :=
  C7_amended E0 S0 (Call.trim (Ident.path "a.mp4") 0 5 "t.mp4" false)
    (by decide) rfl (by decide)

/-- C8 (confirmed): `convert_video_format` with `return_path=false` applies
no transformation: it registers the loaded input clip unchanged and
returns its reference, makes no Media Engine call beyond the load, and the
`codec`/`fps`/`bitrate` arguments have no effect on the result. -/
theorem C8_convert (E : Env) (S : Stores) (v : Ident) (name codec : String)
    (fps : Option ℤ) (bitrate : Option String) (video : Clip)
    (hl : loadVideo E S.vstore v = Except.ok video) :
    (convert_video_format E S v name codec fps bitrate false).out.success = true ∧
    (convert_video_format E S v name codec fps bitrate false).out.output_object =
      some (OutVal.ref S.vstore.nextRef) ∧
    (convert_video_format E S v name codec fps bitrate false).stores.vstore.find
      S.vstore.nextRef = some video ∧
    (convert_video_format E S v name codec fps bitrate false).engineCalls =
      loadCalls S.vstore v ∧
    (∀ codec2 fps2 bitrate2,
      convert_video_format E S v name codec2 fps2 bitrate2 false =
        convert_video_format E S v name codec fps bitrate false) := by
  unfold convert_video_format
  simp only [hl]
  unfold emit1
  simp only [Bool.false_eq_true, if_false]
  refine ⟨rfl, rfl, ?_, rfl, fun _ _ _ => trivial⟩
  exact find_storeClip S.vstore video

/-- C8 witness: a concrete `convert_video_format` store-branch call. -/
theorem C8_w :
    (convert_video_format E0 S0 (Ident.path "a.mp4") "o.mp4" "libx264" none none
      false).out.success = true ∧
    (convert_video_format E0 S0 (Ident.path "a.mp4") "o.mp4" "libx264" none none
      false).out.output_object = some (OutVal.ref S0.vstore.nextRef) ∧
    (convert_video_format E0 S0 (Ident.path "a.mp4") "o.mp4" "libx264" none none
      false).stores.vstore.find S0.vstore.nextRef = some clipA ∧
    (convert_video_format E0 S0 (Ident.path "a.mp4") "o.mp4" "libx264" none none
      false).engineCalls = loadCalls S0.vstore (Ident.path "a.mp4") ∧
    (∀ codec2 fps2 bitrate2,
      convert_video_format E0 S0 (Ident.path "a.mp4") "o.mp4" codec2 fps2 bitrate2 false =
        convert_video_format E0 S0 (Ident.path "a.mp4") "o.mp4" "libx264" none none false) :=
  C8_convert E0 S0 (Ident.path "a.mp4") "o.mp4" "libx264" none none clipA rfl

/-- C9 (confirmed): the reference returned by `store(clip)` resolves via
`load` to exactly the clip stored — the store/load round trip — hence the
loaded clip has the same duration and size. -/
theorem C9_roundtrip (E : Env) (st : Store) (cl : Clip) :
    loadVideo E (storeClip st cl).2 (Ident.ref (storeClip st cl).1) = Except.ok cl := by
  have hs : storeLookup (storeClip st cl).2 (Ident.ref (storeClip st cl).1) = some cl :=
    find_storeClip st cl
  exact loadVideo_cached hs E

/-- A boundary list of n+2 points cuts n+1 intervals. -/
theorem adjPairs_length : ∀ l : List ℚ, (adjPairs l).length = l.length - 1
  | [] => rfl
  | [a] => rfl
  | a :: b :: rest => by
    show (adjPairs (b :: rest)).length + 1 = (b :: rest).length + 1 - 1
    rw [adjPairs_length (b :: rest)]
    simp

/-- A successful segment loop yields one segment per interval. -/
theorem subclipSeq_ok_length {v : Clip} : ∀ {ps : List (ℚ × ℚ)} {cs : List Clip},
    subclipSeq v ps = Except.ok cs → cs.length = ps.length := by
  intro ps
  induction ps with
  | nil =>
    intro cs h
    simp only [subclipSeq, Except.ok.injEq] at h
    rw [← h]
    rfl
  | cons p rest ih =>
    intro cs h
    obtain ⟨s, e⟩ := p
    unfold subclipSeq at h
    cases hs : subclip v s e with
    | error x => rw [hs] at h; exact absurd h (by simp)
    | ok c =>
      rw [hs] at h
      cases hr : subclipSeq v rest with
      | error x => rw [hr] at h; exact absurd h (by simp)
      | ok cs2 =>
        rw [hr] at h
        simp only [Except.ok.injEq] at h
        subst h
        simp [ih hr]

/-- Each segment's duration is the width of its interval. -/
theorem subclipSeq_durations {v : Clip} : ∀ {ps : List (ℚ × ℚ)} {cs : List Clip},
    subclipSeq v ps = Except.ok cs →
    cs.map Clip.duration = ps.map (fun p => p.2 - p.1) := by
  intro ps
  induction ps with
  | nil =>
    intro cs h
    simp only [subclipSeq, Except.ok.injEq] at h
    rw [← h]
    rfl
  | cons p rest ih =>
    intro cs h
    obtain ⟨s, e⟩ := p
    unfold subclipSeq at h
    cases hs : subclip v s e with
    | error x => rw [hs] at h; exact absurd h (by simp)
    | ok c =>
      rw [hs] at h
      cases hr : subclipSeq v rest with
      | error x => rw [hr] at h; exact absurd h (by simp)
      | ok cs2 =>
        rw [hr] at h
        simp only [Except.ok.injEq] at h
        subst h
        have hc : c.duration = e - s := by
          unfold subclip at hs
          split at hs
          · cases hs; rfl
          · exact absurd hs (by simp)
        simp [hc, ih hr]

/-- The interval widths of a boundary list telescope. -/
theorem adjPairs_sum (a : ℚ) (l : List ℚ) :
    ((adjPairs (a :: l)).map (fun p => p.2 - p.1)).sum = l.getLastD a - a := by
  induction l generalizing a with
  | nil => simp [adjPairs]
  | cons b rest ih =>
    show ((b - a) :: ((adjPairs (b :: rest)).map (fun p => p.2 - p.1))).sum =
      (b :: rest).getLastD a - a
    rw [List.sum_cons, ih b, List.getLastD_cons]
    ring

/-- The last boundary of `l ++ [d]` is `d`. -/
theorem getLastD_append_single : ∀ (l : List ℚ) (d a : ℚ), (l ++ [d]).getLastD a = d
  | [], d, a => rfl
  | b :: rest, d, a => by
    rw [List.cons_append, List.getLastD_cons]
    exact getLastD_append_single rest d b

/-- If every interval subclip of the boundary list `a :: l` succeeds, then
every point of `l` lies within `[0, duration]`. -/
theorem subclipSeq_ok_bounds (v : Clip) : ∀ (l : List ℚ) (a : ℚ) (cs : List Clip),
    subclipSeq v (adjPairs (a :: l)) = Except.ok cs →
    ∀ t ∈ l, 0 ≤ t ∧ t ≤ v.duration := by
  intro l
  induction l with
  | nil => intro a cs h t ht; simp at ht
  | cons b rest ih =>
    intro a cs h t ht
    have hadj : adjPairs (a :: b :: rest) = (a, b) :: adjPairs (b :: rest) := rfl
    rw [hadj] at h
    unfold subclipSeq at h
    cases hs : subclip v a b with
    | error x => rw [hs] at h; exact absurd h (by simp)
    | ok c =>
      rw [hs] at h
      cases hr : subclipSeq v (adjPairs (b :: rest)) with
      | error x => rw [hr] at h; exact absurd h (by simp)
      | ok cs2 =>
        have hb : 0 ≤ a ∧ a ≤ b ∧ b ≤ v.duration := by
          unfold subclip at hs
          split at hs
          · next hcond => exact hcond
          · exact absurd hs (by simp)
        rw [List.mem_cons] at ht
        rcases ht with rfl | ht
        · exact ⟨le_trans hb.1 hb.2.1, hb.2.2⟩
        · exact ih b cs2 hr t ht

/-- The segment loop always attempts at least one subclip. -/
theorem subclipAttempts_adjPairs_pos (v : Clip) (a b : ℚ) (l : List ℚ) :
    1 ≤ subclipAttempts v (adjPairs (a :: b :: l)) := by
  have hadj : adjPairs (a :: b :: l) = (a, b) :: adjPairs (b :: l) := rfl
  rw [hadj]
  unfold subclipAttempts
  cases hsb : subclip v a b <;> simp only [hsb] <;> omega

/-- A successful write loop writes one file per segment. -/
theorem writeSeq_ok_length {E : Env} {dir name : String} :
    ∀ {cs : List Clip} {i : ℕ} {ps : List String},
    writeSeq E dir name cs i = Except.ok ps → ps.length = cs.length := by
  intro cs
  induction cs with
  | nil =>
    intro i ps h
    simp only [writeSeq, Except.ok.injEq] at h
    rw [← h]
    rfl
  | cons c rest ih =>
    intro i ps h
    unfold writeSeq at h
    cases hw : E.writeOk (partPath dir name i) with
    | false => rw [hw] at h; exact absurd h (by simp)
    | true =>
      rw [hw] at h
      simp only [if_true] at h
      cases hr : writeSeq E dir name rest (i + 1) with
      | error x => rw [hr] at h; exact absurd h (by simp)
      | ok ps2 =>
        rw [hr] at h
        simp only [Except.ok.injEq] at h
        subst h
        simp [ih hr]

/-- C4 (confirmed): a successful `split_video_at_times` over n split times
produces exactly n+1 segments — n+1 registered references when
`return_path=false` (each resolving to the subclip of its interval, with
boundaries `[0] + times + [duration]`, and the segment durations summing to
the clip's duration), and n+1 output paths when `return_path=true`. -/
theorem C4_split (E : Env) (S : Stores) (v : Ident) (times : List ℚ)
    (name : String) (video : Clip)
    (hl : loadVideo E S.vstore v = Except.ok video) :
    ((split_video_at_times E S v times name false).out.success = true →
      ∃ refs segs,
        (split_video_at_times E S v times name false).out.output_objects = some refs ∧
        subclipSeq video (adjPairs (0 :: (times ++ [video.duration]))) = Except.ok segs ∧
        refs.length = times.length + 1 ∧
        segs.length = times.length + 1 ∧
        (∀ p ∈ refs.zip segs,
          (split_video_at_times E S v times name false).stores.vstore.find p.1 =
            some p.2) ∧
        (segs.map Clip.duration).sum = video.duration) ∧
    ((split_video_at_times E S v times name true).out.success = true →
      ∃ ps, (split_video_at_times E S v times name true).out.output_paths = some ps ∧
        ps.length = times.length + 1) := by
  have hblen : (adjPairs (0 :: (times ++ [video.duration]))).length = times.length + 1 := by
    rw [adjPairs_length]
    simp
  constructor
  · intro hs
    cases hsq : subclipSeq video (adjPairs (0 :: (times ++ [video.duration]))) with
    | error x =>
      unfold split_video_at_times at hs
      simp only [hl, hsq] at hs
      simp [eres] at hs
    | ok segments =>
      have hseglen : segments.length = times.length + 1 := by
        rw [subclipSeq_ok_length hsq, hblen]
      unfold split_video_at_times
      simp only [hl, hsq]
      simp only [Bool.false_eq_true, if_false]
      refine ⟨(storeAll S.vstore segments).1, segments, rfl, rfl, ?_, hseglen, ?_, ?_⟩
      · rw [storeAll_length, hseglen]
      · intro p hp
        exact storeAll_zip_find segments S.vstore p hp
      · rw [subclipSeq_durations hsq, adjPairs_sum, getLastD_append_single, sub_zero]
  · intro hs
    cases hsq : subclipSeq video (adjPairs (0 :: (times ++ [video.duration]))) with
    | error x =>
      unfold split_video_at_times at hs
      simp only [hl, hsq] at hs
      simp [eres] at hs
    | ok segments =>
      cases hws : writeSeq E (get_output_path name) name segments 0 with
      | error x =>
        unfold split_video_at_times at hs
        simp only [hl, hsq, if_true, hws] at hs
        simp [eres] at hs
      | ok ps =>
        unfold split_video_at_times
        simp only [hl, hsq, if_true, hws]
        refine ⟨ps, rfl, ?_⟩
        rw [writeSeq_ok_length hws, subclipSeq_ok_length hsq, hblen]

/-- C4 witness: splitting the 10-second clip at times 3 and 7. -/
theorem C4_w :
    ((split_video_at_times E0 S0 (Ident.path "a.mp4") [3, 7] "s" false).out.success = true →
      ∃ refs segs,
        (split_video_at_times E0 S0 (Ident.path "a.mp4") [3, 7] "s"
          false).out.output_objects = some refs ∧
        subclipSeq clipA (adjPairs (0 :: ([3, 7] ++ [clipA.duration]))) = Except.ok segs ∧
        refs.length = 3 ∧
        segs.length = 3 ∧
        (∀ p ∈ refs.zip segs,
          (split_video_at_times E0 S0 (Ident.path "a.mp4") [3, 7] "s"
            false).stores.vstore.find p.1 = some p.2) ∧
        (segs.map Clip.duration).sum = clipA.duration) ∧
    ((split_video_at_times E0 S0 (Ident.path "a.mp4") [3, 7] "s" true).out.success = true →
      ∃ ps,
        (split_video_at_times E0 S0 (Ident.path "a.mp4") [3, 7] "s"
          true).out.output_paths = some ps ∧ ps.length = 3) :=
  C4_split E0 S0 (Ident.path "a.mp4") [3, 7] "s" clipA rfl

/-- C5 counterexample: a split time equal to the clip's duration lies
outside the open interval (0, duration), yet the call succeeds (the code
performs no validation and the engine accepts the degenerate boundary), so
the claim that such calls return a `success=false` validation envelope is
false. -/
theorem C5_cex :
    (split_video_at_times E0 S0 (Ident.path "a.mp4") [10] "s" false).out.success = true ∧
    ¬((0 : ℚ) < 10 ∧ (10 : ℚ) < clipA.duration) := by
  decide

/-- C5 (amended): `split_video_at_times` performs no validation of the
split times.  A split time strictly below 0 or strictly above the clip's
duration makes the Media Engine's subclip call fail after the Object Store
load has already been invoked; the failure is caught by the generic
handler, so the envelope carries `error_type`, at least one Engine call
and at least one Store operation were made.  (Times equal to 0 or to the
duration are accepted and the call succeeds with degenerate segments.) -/
theorem C5_amended (E : Env) (S : Stores) (v : Ident) (times : List ℚ)
    (name : String) (rp : Bool) (video : Clip)
    (hl : loadVideo E S.vstore v = Except.ok video)
    (t : ℚ) (ht : t ∈ times) (hout : t < 0 ∨ video.duration < t) :
    (split_video_at_times E S v times name rp).out.success = false ∧
    (split_video_at_times E S v times name rp).out.error_type.isSome ∧
    1 ≤ (split_video_at_times E S v times name rp).engineCalls ∧
    1 ≤ (split_video_at_times E S v times name rp).storeOps := by
  cases hsq : subclipSeq video (adjPairs (0 :: (times ++ [video.duration]))) with
  | ok segs =>
    exfalso
    have hb := subclipSeq_ok_bounds video (times ++ [video.duration]) 0 segs hsq t
      (List.mem_append.mpr (Or.inl ht))
    rcases hout with h | h
    · exact absurd hb.1 (not_le.mpr h)
    · exact absurd hb.2 (not_le.mpr h)
  | error x =>
    have hat : 1 ≤ subclipAttempts video (adjPairs (0 :: (times ++ [video.duration]))) := by
      cases times with
      | nil => simpa using subclipAttempts_adjPairs_pos video 0 video.duration []
      | cons b rest =>
        simpa using subclipAttempts_adjPairs_pos video 0 b (rest ++ [video.duration])
    unfold split_video_at_times
    simp only [hl, hsq]
    refine ⟨rfl, by simp [eres], ?_, by simp [eres]⟩
    simp only [eres]
    omega

/-- C5 witness for the amended statement: a split time of 100 on the
10-second clip fails at the engine, after the store was consulted. -/
theorem C5_w :
    (split_video_at_times E0 S0 (Ident.path "a.mp4") [100] "s" false).out.success = false ∧
    (split_video_at_times E0 S0 (Ident.path "a.mp4") [100] "s"
      false).out.error_type.isSome ∧
    1 ≤ (split_video_at_times E0 S0 (Ident.path "a.mp4") [100] "s" false).engineCalls ∧
    1 ≤ (split_video_at_times E0 S0 (Ident.path "a.mp4") [100] "s" false).storeOps :=
  C5_amended E0 S0 (Ident.path "a.mp4") [100] "s" false clipA rfl 100
    (by decide) (by decide)
